import Mathlib

/-!
Verification of the server-side RPC action dispatcher (`RpcServerAction` in
`packages/rpc/src/server/action.ts`).

The TypeScript class is embedded shallowly:

* JS objects used as keyed tables (`cachedActionsTypes`, `observables`,
  `collections`, `observableSubjects`, the per-observable `subscriptions`
  maps) become association lists.  The per-observable `subscriptions` maps
  are flattened into one table keyed by `(call id, subscription id)`, which
  is equivalent because every map in the source is reached only through its
  call id.
* Mutable records captured by rxjs callbacks (the `sub` record with its
  `active` flag, the `unsubscribed` drop flag of a collection) become
  closure records that survive deletion of their table entry, mirroring the
  fact that `delete map[id]` in the source does not destroy the captured
  object.
* `async`/`await` control flow becomes explicit: a thrown exception or
  rejected promise that escapes `handleAction` is an `Option RpcError`
  result component (the source emits no frame before any escaping throw,
  so the emitted trace is empty in that case).
* The external JIT codec (`getXToClassFunction`) and validator
  (`jitValidate`) from `@deepkit/type` are not part of the source under
  verification; they are modelled as a structural identity decoder and a
  straightforward schema validator over a small value universe.
* rxjs delivery is modelled by explicit delivery events.  A delivery that
  arrives after the underlying rxjs subscription was cancelled is dropped,
  except that a delivery may be marked in flight, modelling the race the
  source's `active` flag defends against (a value already dispatched when
  the unsubscribe ran).
-/

/-- Wire/native values exchanged with controller methods. -/
inductive Value where
  | vStr (s : String)
  | vInt (n : Int)
  | vBool (b : Bool)
  | vNull
  deriving DecidableEq, Repr

/-- A class reference as seen by `isPrototypeOfBase`: its name and whether it
is a subclass of the three wrapper classes tested in `loadTypes`. -/
structure ClassRef where
  name : String
  subObservable : Bool
  subCollection : Bool
  subPromise : Bool
  deriving DecidableEq, Repr

/-- A `PropertySchema` of `@deepkit/type`: the fields `loadTypes` reads and
writes (`name`, the declared base type, `classType`, `templateArgs`,
`isOptional`). -/
inductive PropertySchema where
  | mk (name : String) (baseType : String) (classType : Option ClassRef)
      (templateArgs : List PropertySchema) (isOptional : Bool)

def PropertySchema.name : PropertySchema → String
  | .mk n _ _ _ _ => n

def PropertySchema.baseType : PropertySchema → String
  | .mk _ b _ _ _ => b

def PropertySchema.classType : PropertySchema → Option ClassRef
  | .mk _ _ c _ _ => c

def PropertySchema.templateArgs : PropertySchema → List PropertySchema
  | .mk _ _ _ t _ => t

def PropertySchema.isOptional : PropertySchema → Bool
  | .mk _ _ _ _ o => o

/-- `resultProperty.name = 'v'; resultProperty.isOptional = true;` -/
def PropertySchema.toV : PropertySchema → PropertySchema
  | .mk _ b c t _ => .mk "v" b c t true

/-- A `ClassSchema`: an ordered list of registered properties. -/
structure ClassSchema where
  properties : List PropertySchema

def ClassSchema.getProperty (s : ClassSchema) (n : String) : Option PropertySchema :=
  s.properties.find? (fun p => p.name == n)

/-- The property `{ id: number }` of `rpcActionObservableSubscribeId`. -/
def idProperty : PropertySchema := .mk "id" "number" none [] false

/-- The memoized `ActionTypes` bundle.  The source also stores the two JIT
compiled functions `parametersDeserialize` and `parametersValidate`; both are
pure functions of `parameterSchema`, so they are applied at the use sites
(`deserializeArgs`, `parametersValidate`) instead of being stored. -/
structure ActionTypes where
  parameters : List PropertySchema
  parameterSchema : ClassSchema
  resultSchema : ClassSchema
  observableNextSchema : ClassSchema
  collectionSchema : Option ClassSchema

structure ValidationFailedItem where
  path : String
  message : String
  deriving DecidableEq, Repr

/-- Errors thrown (`new Error(message)`) or reported (`ValidationError`). -/
inductive RpcError where
  | err (msg : String)
  | validationError (failures : List ValidationFailedItem)
  deriving DecidableEq, Repr

/-- `ActionObservableTypes` of the announcement frame. -/
inductive ObsAnnounceType where
  | observable
  | subject
  | behaviorSubject
  deriving DecidableEq, Repr

/-- Sub-frames of the two composite collection frames. -/
inductive SubFrame where
  | collectionModel (model : Value)
  | collectionState (state : Value)
  | collectionSet (items : List Value)
  | collectionAdd (items : List Value)
  | collectionRemove (ids : List Value)
  deriving DecidableEq, Repr

/-- Outbound frames (`response.reply` / `response.composite` / `response.error`). -/
inductive Frame where
  | responseEntity (v : Value)
  | responseActionSimple (v : Value)
  | responseActionObservable (ty : ObsAnnounceType)
  | responseActionObservableNext (id : Nat) (v : Value)
  | responseActionObservableError (id : Nat) (msg : String)
  | responseActionObservableComplete (id : Nat)
  | responseActionCollection (subs : List SubFrame)
  | responseActionCollectionChange (subs : List SubFrame)
  | errorFrame (e : RpcError)
  deriving DecidableEq, Repr

/-- Observable emissions of the dispatcher: frames (tagged with the call id
they correlate to) and controller method invocations. -/
inductive Emit where
  | frame (cid : Nat) (f : Frame)
  | invoked (controller method : String) (args : List Value)
  deriving DecidableEq, Repr

/-- Events a live collection's change source emits. -/
inductive CollectionEvent where
  | add (items : List Value)
  | remove (ids : List Value)
  | set (items : List Value)
  | state (s : Value)
  deriving DecidableEq, Repr

inductive SourceEvent where
  | nextE (v : Value)
  | errorE (msg : String)
  | completeE
  deriving DecidableEq, Repr

/-- The awaited result of a controller method invocation, with its
`instanceof` classification flags.  In the source a value can satisfy
several flags at once (e.g. `Collection` extends an rxjs class), so the
flags are kept independent.  `subscribeReplay` is the list of values the
underlying source delivers synchronously to a fresh subscriber (a
`BehaviorSubject` replays its current value). -/
structure RuntimeValue where
  isEntitySubject : Bool := false
  isCollection : Bool := false
  isObservable : Bool := false
  isSubject : Bool := false
  isBehaviorSubject : Bool := false
  plainValue : Value := .vNull
  collModel : Value := .vNull
  collState : Value := .vNull
  collItems : List Value := []
  subscribeReplay : List Value := []

/-- One declared action of a controller: parameter schemas, the declared
return `PropertySchema` and the implementation (a rejected promise is
`Except.error`). -/
structure ActionDef where
  params : List PropertySchema
  returnProp : PropertySchema
  impl : List Value → Except String RuntimeValue

structure ControllerClass where
  className : String
  actions : List (String × ActionDef)

/-- The dispatcher's collaborators: the controller registry and the set of
class names the injector can resolve. -/
structure Env where
  controllers : List (String × ControllerClass)
  injector : List String

/-- The mutable record `{ active, sub }` captured by a client subscription's
callbacks.  `present` models membership in `observable.subscriptions`
(`delete` clears it without destroying the record); `cancelled` models the
rxjs subscription having been unsubscribed. -/
structure SubClosure where
  present : Bool
  active : Bool
  cancelled : Bool
  deriving DecidableEq, Repr

/-- `this.observables[id]` (minus the subscriptions map, which is flattened
into `ServerState.observableSubscriptions`). -/
structure ObsEntry where
  syncReplay : List Value
  observableNextSchema : ClassSchema

/-- The state captured by a collection's event pipeline: `present` models
membership in `this.collections`, `unsubscribed` is the drop flag,
`feedClosed` models `eventsSub.unsubscribe()`, `pending` is the batch
collected for the next microtask, and `model`/`state`/`items` mirror the
live collection object (`collection.all()` reads `items`). -/
structure CollClosure where
  present : Bool
  unsubscribed : Bool
  feedClosed : Bool
  pending : List CollectionEvent
  model : Value
  state : Value
  items : List Value

/-- `this.observableSubjects[id]`. -/
structure SubjEntry where
  cancelled : Bool

structure ServerState where
  cachedActionsTypes : List (String × ActionTypes)
  observables : List (Nat × ObsEntry)
  observableSubscriptions : List ((Nat × Nat) × SubClosure)
  collections : List (Nat × CollClosure)
  observableSubjects : List (Nat × SubjEntry)

def initState : ServerState :=
  { cachedActionsTypes := []
    observables := []
    observableSubscriptions := []
    collections := []
    observableSubjects := [] }

/-- Association list lookup (JS object property read). -/
def alook {α β : Type} [DecidableEq α] (k : α) : List (α × β) → Option β
  | [] => none
  | (k', v) :: rest => if k = k' then some v else alook k rest

/-- Association list write (JS object property assignment). -/
def aset {α β : Type} [DecidableEq α] (k : α) (v : β) : List (α × β) → List (α × β)
  | [] => [(k, v)]
  | (k', v') :: rest => if k = k' then (k, v) :: rest else (k', v') :: aset k v rest

theorem alook_aset_eq {α β : Type} [DecidableEq α] (k : α) (v : β) :
    ∀ l : List (α × β), alook k (aset k v l) = some v := by
  intro l
  induction l with
  | nil => simp [alook, aset]
  | cons hd tl ih =>
    by_cases h : k = hd.1
    · simp [alook, aset, h]
    · simp [alook, aset, h, ih]

theorem alook_aset_ne {α β : Type} [DecidableEq α] {k k' : α}
    (h : k ≠ k') : ∀ (v : β) (l : List (α × β)), alook k (aset k' v l) = alook k l := by
  intro v l
  induction l with
  | nil => simp [alook, aset, h]
  | cons hd tl ih =>
    by_cases h2 : k' = hd.1
    · subst h2
      simp [alook, aset, h]
    · by_cases h3 : k = hd.1 <;> simp [alook, aset, h2, h3, ih]

/-- The wrapper test of `loadTypes`: `resultProperty.classType &&
(isPrototypeOfBase(classType, Observable) || ...Collection || ...Promise)`. -/
def isWrapper (p : PropertySchema) : Bool :=
  match p.classType with
  | some c => c.subObservable || c.subCollection || c.subPromise
  | none => false

def wrapperClassName (p : PropertySchema) : String :=
  match p.classType with
  | some c => c.name
  | none => ""

/-- The message of the error thrown for a wrapper return type without a
declared generic, built exactly as in the source (`getClassPropertyName`
renders `ClassName.method`). -/
def missingGenericMessage (classPropertyName className method : String) : String :=
  "Your method " ++ classPropertyName ++ " returns " ++ className ++
  " and you have not specified a generic type using @t.generic() decorator. " ++
  "Please define the generic type of your " ++ className ++
  "<T>, e.g. @t.generic(T), where T is your actual type. Any is now used, which is much slower to serialize and produces no class instances." ++
  "\nExample:" ++
  "\n   @t.generic(t.string)" ++
  "\n   " ++ method ++ "(): " ++ className ++ "<string> \x7b\x7d" ++
  "\n   @t.generic(MyModel)" ++
  "\n   " ++ method ++ "(): " ++ className ++ "<MyModel> \x7b\x7d"

def cacheKey (controller method : String) : String := controller ++ "!" ++ method

/-- Lines 108–127: if the declared return type is a wrapper class
(observable, collection or promise), unwrap its first template argument;
absent template arguments raise the missing-generic error. -/
def unwrapResultProperty (classType : ControllerClass) (method : String)
    (p : PropertySchema) : Except RpcError PropertySchema :=
  if isWrapper p then
    match p.templateArgs with
    | [] =>
      .error (.err (missingGenericMessage
        (classType.className ++ "." ++ method) (wrapperClassName p) method))
    | generic :: _ => .ok generic
  else .ok p

/-- `loadTypes(controller, method)` (lines 76–148): cache lookup, controller
and action resolution, single-level wrapper unwrap, renaming of the result
property to `v`, construction of the schemas, memoization. -/
def loadTypes (env : Env) (controller method : String) (st : ServerState) :
    Except RpcError (ActionTypes × ServerState) :=
  match alook (cacheKey controller method) st.cachedActionsTypes with
  | some types => .ok (types, st)
  | none =>
    match alook controller env.controllers with
    | none => .error (.err ("No controller registered for id " ++ controller))
    | some classType =>
      match alook method classType.actions with
      | none => .error (.err ("Action unknown " ++ method))
      | some ad =>
        match unwrapResultProperty classType method ad.returnProp with
        | .error e => .error e
        | .ok rp0 =>
          let parameters := ad.params
          let argSchema : ClassSchema := ⟨parameters⟩
          let resultProperty := rp0.toV
          let observableNextSchema : ClassSchema := ⟨[idProperty, resultProperty]⟩
          let resultSchema : ClassSchema := ⟨[resultProperty]⟩
          let types : ActionTypes :=
            { parameters := parameters
              parameterSchema := argSchema
              resultSchema := resultSchema
              observableNextSchema := observableNextSchema
              collectionSchema := none }
          .ok (types,
            { st with cachedActionsTypes :=
                (aset (cacheKey controller method) types st.cachedActionsTypes) })

/-- The JIT decoder compiled from the args schema; the external codec is the
identity on this already-native value universe. -/
def deserializeArgs (_params : List PropertySchema) (args : List Value) : List Value :=
  args

def typeMatches (baseType : String) (v : Value) : Bool :=
  match baseType, v with
  | "string", .vStr _ => true
  | "number", .vInt _ => true
  | "boolean", .vBool _ => true
  | "any", _ => true
  | _, _ => false

def validateParam (p : PropertySchema) (v : Option Value) : List ValidationFailedItem :=
  match v with
  | none => if p.isOptional then [] else [⟨p.name, "required"⟩]
  | some v => if typeMatches p.baseType v then [] else [⟨p.name, "invalid_type"⟩]

/-- The JIT validator compiled from the args schema: one failure per
parameter whose value is missing (unless optional) or of the wrong type. -/
def parametersValidate : List PropertySchema → List Value → List ValidationFailedItem
  | [], _ => []
  | p :: ps, [] => validateParam p none ++ parametersValidate ps []
  | p :: ps, a :: as => validateParam p (some a) ++ parametersValidate ps as

inductive Branch where
  | entity
  | collection
  | pushSource
  | plain
  deriving DecidableEq, Repr

/-- The `instanceof` chain of `handleAction` (lines 232, 235, 285, 314):
entity-subject, else collection, else observable, else plain. -/
def classify (r : RuntimeValue) : Branch :=
  if r.isEntitySubject then .entity
  else if r.isCollection then .collection
  else if r.isObservable then .pushSource
  else .plain

/-- Lazily built `{ v: array<resultProperty> }` schema (lines 238–244). -/
def mkCollectionSchema (resultV : PropertySchema) : ClassSchema :=
  ⟨[.mk "v" "array" none [resultV] false]⟩

def anyProperty : PropertySchema := .mk "v" "any" none [] true

/-- What a fresh subscriber receives synchronously from the result source. -/
def syncReplayOf (r : RuntimeValue) : List Value :=
  r.subscribeReplay


/-- Line 286: `this.observables[message.id] = { …, subscriptions: {} }`
replaces the subscriptions map of call `cid` with a fresh empty one: every
previously present subscription of that call stops being present, while the
captured closure records keep their other flags. -/
def dropSubsFor (cid : Nat) (l : List ((Nat × Nat) × SubClosure)) :
    List ((Nat × Nat) × SubClosure) :=
  l.map (fun p => if p.1.1 = cid then (p.1, { p.2 with present := false }) else p)

/-- The branch on the awaited result inside the try block (lines 230–316).
The collection branch lazily installs `collectionSchema` on the cached
`ActionTypes` (lines 238–244), emits the opening composite (lines 246–250)
and registers the event pipeline and its unsubscribe closure (252–283).
The observable branch registers the stream entry with a fresh (empty)
subscriptions map (line 286), auto-subscribes when the result is a subject
(292–306; a `BehaviorSubject` replays its current value synchronously into
the next callback) and only then replies the announcement (line 313). -/
def respondResult (cid : Nat) (controller method : String)
    (types : ActionTypes) (r : RuntimeValue) (st1 : ServerState) :
    ServerState × List Emit :=
  match classify r with
  | .entity => (st1, [.frame cid (.responseEntity r.plainValue)])
  | .collection =>
    let key := cacheKey controller method
    let st2 :=
      match types.collectionSchema with
      | some _ => st1
      | none =>
        let cs := mkCollectionSchema ((types.resultSchema.getProperty "v").getD anyProperty)
        let cache' := aset key { types with collectionSchema := some cs } st1.cachedActionsTypes
        { st1 with cachedActionsTypes := cache' }
    let opening := Frame.responseActionCollection
      [.collectionModel r.collModel, .collectionState r.collState, .collectionSet r.collItems]
    let cl : CollClosure :=
      { present := true, unsubscribed := false, feedClosed := false, pending := [],
        model := r.collModel, state := r.collState, items := r.collItems }
    ({ st2 with collections := aset cid cl st2.collections }, [.frame cid opening])
  | .pushSource =>
    let entry : ObsEntry :=
      { syncReplay := syncReplayOf r, observableNextSchema := types.observableNextSchema }
    let st2 := { st1 with
      observables := aset cid entry st1.observables
      observableSubscriptions := dropSubsFor cid st1.observableSubscriptions }
    if r.isSubject then
      let autoFrames := (syncReplayOf r).map
        (fun v => Emit.frame cid (.responseActionObservableNext cid v))
      let st3 := { st2 with observableSubjects := aset cid ⟨false⟩ st2.observableSubjects }
      let ty := if r.isBehaviorSubject then ObsAnnounceType.behaviorSubject else .subject
      (st3, autoFrames ++ [.frame cid (.responseActionObservable ty)])
    else
      (st2, [.frame cid (.responseActionObservable .observable)])
  | .plain => (st1, [.frame cid (.responseActionSimple r.plainValue)])

/-- `handleAction(message, response)` (lines 212–320).  The third component
is an exception escaping `handleAction` (as a rejected promise): everything
before the `try` of line 229 — controller lookup, `loadTypes`, body parse,
injector resolution — throws out of the function, and the source emits no
frame before any of those throws. -/
def handleAction (env : Env) (cid : Nat) (controller method : String)
    (args : List Value) (st : ServerState) :
    ServerState × List Emit × Option RpcError :=
  match alook controller env.controllers with
  | none => (st, [], some (.err ("No controller registered for id " ++ controller)))
  | some classType =>
    match loadTypes env controller method st with
    | .error e => (st, [], some e)
    | .ok (types, st1) =>
      if env.injector.contains classType.className then
        if (parametersValidate types.parameters (deserializeArgs types.parameters args)).isEmpty then
          match alook method classType.actions with
          | none => (st1, [], some (.err ("Action unknown " ++ method)))
          | some ad =>
            match ad.impl (deserializeArgs types.parameters args) with
            | .error emsg =>
              (st1, [.invoked controller method (deserializeArgs types.parameters args),
                     .frame cid (.errorFrame (.err emsg))], none)
            | .ok r =>
              let s := respondResult cid controller method types r st1
              (s.1, .invoked controller method (deserializeArgs types.parameters args) :: s.2, none)
        else
          (st1, [.frame cid (.errorFrame (.validationError
            (parametersValidate types.parameters (deserializeArgs types.parameters args))))], none)
      else (st1, [], some (.err ("Injector has no instance for " ++ classType.className)))

def subPresent (st : ServerState) (cid subId : Nat) : Bool :=
  match alook (cid, subId) st.observableSubscriptions with
  | some cl => cl.present
  | none => false

/-- `ActionObservableSubscribe` (lines 153–178): duplicate subscription ids
are rejected against the currently present subscriptions; a fresh `{ active:
true }` record is installed and the source is subscribed, synchronously
replaying through the next callback (which checks `sub.active`). -/
def handleSubscribe (cid subId : Nat) (st : ServerState) : ServerState × List Emit :=
  match alook cid st.observables with
  | none => (st, [.frame cid (.errorFrame (.err "No observable found"))])
  | some entry =>
    if subPresent st cid subId then
      (st, [.frame cid (.errorFrame (.err "Subscription already created"))])
    else
      let cl : SubClosure := { present := true, active := true, cancelled := false }
      let subs' := aset (cid, subId) cl st.observableSubscriptions
      let st1 := { st with observableSubscriptions := subs' }
      (st1, entry.syncReplay.map (fun v => Emit.frame cid (.responseActionObservableNext subId v)))

/-- `ActionObservableUnsubscribe` (lines 188–200): clear `active`, cancel the
rxjs subscription, delete the map entry. -/
def handleUnsubscribe (cid subId : Nat) (st : ServerState) : ServerState × List Emit :=
  match alook cid st.observables with
  | none => (st, [.frame cid (.errorFrame (.err "No observable found"))])
  | some _ =>
    match alook (cid, subId) st.observableSubscriptions with
    | none => (st, [.frame cid (.errorFrame (.err "No subscription found"))])
    | some cl =>
      if cl.present then
        let cl' : SubClosure := { cl with present := false, active := false, cancelled := true }
        let subs' := aset (cid, subId) cl' st.observableSubscriptions
        ({ st with observableSubscriptions := subs' }, [])
      else (st, [.frame cid (.errorFrame (.err "No subscription found"))])

/-- `ActionObservableSubjectUnsubscribe` (lines 202–207). -/
def handleSubjectUnsubscribe (cid : Nat) (st : ServerState) : ServerState × List Emit :=
  match alook cid st.observableSubjects with
  | none => (st, [.frame cid (.errorFrame (.err "No observable found"))])
  | some se =>
    ({ st with observableSubjects := aset cid { se with cancelled := true } st.observableSubjects }, [])

/-- `ResponseActionCollectionUnsubscribe` (lines 180–186): run the stored
unsubscribe closure (drop flag, feed teardown, collection unsubscribe) and
delete the entry. -/
def handleCollectionUnsubscribe (cid : Nat) (st : ServerState) : ServerState × List Emit :=
  match alook cid st.collections with
  | none => (st, [.frame cid (.errorFrame (.err "No collection found"))])
  | some cl =>
    if cl.present then
      let cl' : CollClosure := { cl with present := false, unsubscribed := true, feedClosed := true }
      ({ st with collections := aset cid cl' st.collections }, [])
    else (st, [.frame cid (.errorFrame (.err "No collection found"))])

/-- Delivery of a source event to a client subscription's callbacks (lines
162–175).  A delivery after the rxjs subscription was cancelled is dropped
unless it was already in flight; the next callback is gated by `sub.active`,
the error and complete callbacks are not.  rxjs closes the subscription
after a terminal event. -/
def obsDeliverStep (cid subId : Nat) (ev : SourceEvent) (inFlight : Bool)
    (st : ServerState) : ServerState × List Emit :=
  match alook (cid, subId) st.observableSubscriptions with
  | none => (st, [])
  | some cl =>
    if cl.cancelled && !inFlight then (st, [])
    else
      let out : List Emit :=
        match ev with
        | .nextE v =>
          if cl.active then [.frame cid (.responseActionObservableNext subId v)] else []
        | .errorE msg => [.frame cid (.responseActionObservableError subId msg)]
        | .completeE => [.frame cid (.responseActionObservableComplete subId)]
      let cl' : SubClosure :=
        match ev with
        | .nextE _ => cl
        | _ => { cl with cancelled := true }
      ({ st with observableSubscriptions := aset (cid, subId) cl' st.observableSubscriptions }, out)

/-- Delivery of a source event to the server's auto-subscription of a
subject result (lines 292–306); its callbacks are not gated by any flag. -/
def subjDeliverStep (cid : Nat) (ev : SourceEvent) (inFlight : Bool)
    (st : ServerState) : ServerState × List Emit :=
  match alook cid st.observableSubjects with
  | none => (st, [])
  | some se =>
    if se.cancelled && !inFlight then (st, [])
    else
      let out : List Emit :=
        match ev with
        | .nextE v => [.frame cid (.responseActionObservableNext cid v)]
        | .errorE msg => [.frame cid (.responseActionObservableError cid msg)]
        | .completeE => [.frame cid (.responseActionObservableComplete cid)]
      let se' : SubjEntry :=
        match ev with
        | .nextE _ => se
        | _ => { se with cancelled := true }
      ({ st with observableSubjects := aset cid se' st.observableSubjects }, out)

def applyCollectionEvent (ev : CollectionEvent) (cl : CollClosure) : CollClosure :=
  match ev with
  | .add items => { cl with items := cl.items ++ items }
  | .remove ids => { cl with items := cl.items.filter (fun v => !(ids.contains v)) }
  | .set items => { cl with items := items }
  | .state s => { cl with state := s }

/-- A change-source emission: it mutates the live collection and, unless the
event feed subscription was torn down, is queued by `collectForMicrotask`
for the next flush (line 256). -/
def collEmitStep (cid : Nat) (ev : CollectionEvent) (st : ServerState) :
    ServerState × List Emit :=
  match alook cid st.collections with
  | none => (st, [])
  | some cl =>
    if cl.feedClosed then (st, [])
    else
      let cl' := applyCollectionEvent ev { cl with pending := cl.pending ++ [ev] }
      ({ st with collections := aset cid cl' st.collections }, [])

def subFrameOfEvent (cl : CollClosure) (ev : CollectionEvent) : SubFrame :=
  match ev with
  | .add items => .collectionAdd items
  | .remove ids => .collectionRemove ids
  | .set _ => .collectionSet cl.items
  | .state _ => .collectionState cl.state

/-- The microtask flush of a queued batch (lines 256–275): the drop flag is
checked before any frame is built; otherwise one composite
`ResponseActionCollectionChange` with one sub-frame per event is emitted,
`set` and `state` sub-frames reading the collection at emit time. -/
def collFlushStep (cid : Nat) (st : ServerState) : ServerState × List Emit :=
  match alook cid st.collections with
  | none => (st, [])
  | some cl =>
    if cl.pending.isEmpty then (st, [])
    else if cl.unsubscribed then
      ({ st with collections := aset cid { cl with pending := [] } st.collections }, [])
    else
      let subs := cl.pending.map (subFrameOfEvent cl)
      ({ st with collections := aset cid { cl with pending := [] } st.collections },
       [.frame cid (.responseActionCollectionChange subs)])

/-- One interaction of the dispatcher: an inbound message (`handleAction` /
`handle`) or an asynchronous delivery from a source. -/
inductive InputEvent where
  | inAction (cid : Nat) (controller method : String) (args : List Value)
  | inSubscribe (cid subId : Nat)
  | inUnsubscribe (cid subId : Nat)
  | inSubjectUnsubscribe (cid : Nat)
  | inCollectionUnsubscribe (cid : Nat)
  | obsDeliver (cid subId : Nat) (ev : SourceEvent) (inFlight : Bool)
  | subjDeliver (cid : Nat) (ev : SourceEvent) (inFlight : Bool)
  | collEmit (cid : Nat) (ev : CollectionEvent)
  | collFlush (cid : Nat)
  deriving DecidableEq, Repr

def step (env : Env) (st : ServerState) : InputEvent → ServerState × List Emit
  | .inAction cid c m args =>
    ((handleAction env cid c m args st).1, (handleAction env cid c m args st).2.1)
  | .inSubscribe cid subId => handleSubscribe cid subId st
  | .inUnsubscribe cid subId => handleUnsubscribe cid subId st
  | .inSubjectUnsubscribe cid => handleSubjectUnsubscribe cid st
  | .inCollectionUnsubscribe cid => handleCollectionUnsubscribe cid st
  | .obsDeliver cid subId ev f => obsDeliverStep cid subId ev f st
  | .subjDeliver cid ev f => subjDeliverStep cid ev f st
  | .collEmit cid ev => collEmitStep cid ev st
  | .collFlush cid => collFlushStep cid st

def run (env : Env) (st : ServerState) : List InputEvent → ServerState × List Emit
  | [] => (st, [])
  | e :: es =>
    let s1 := step env st e
    let s2 := run env s1.1 es
    (s2.1, s1.2 ++ s2.2)

theorem strAppendAssoc : ∀ (a b c : String), (a ++ b) ++ c = a ++ (b ++ c)
  | ⟨a⟩, ⟨b⟩, ⟨c⟩ => congrArg String.mk (List.append_assoc a b c)

/-! ## A concrete controller environment used to exercise the dispatcher -/

def numProp (n : String) : PropertySchema := .mk n "number" none [] false

def strTemplateArg : PropertySchema := .mk "T" "string" none [] false

def observableClass : ClassRef := ⟨"Observable", true, false, false⟩

def behaviorSubjectClass : ClassRef := ⟨"BehaviorSubject", true, false, false⟩

def collectionClass : ClassRef := ⟨"Collection", true, true, false⟩

/-- `add(a: number, b: number): number`. -/
def addAction : ActionDef :=
  { params := [numProp "a", numProp "b"]
    returnProp := .mk "add" "number" none [] false
    impl := fun args =>
      match args with
      | [.vInt a, .vInt b] => .ok { plainValue := .vInt (a + b) }
      | _ => .error "bad args" }

/-- `sub(): BehaviorSubject<string>` with current value `"hi"`: a latched
subject that replays its current value synchronously on subscribe. -/
def subAction : ActionDef :=
  { params := []
    returnProp := .mk "sub" "class" (some behaviorSubjectClass) [strTemplateArg] false
    impl := fun _ => .ok { isObservable := true, isSubject := true, isBehaviorSubject := true,
                           subscribeReplay := [.vStr "hi"] } }

/-- `obs(): Observable<string>`, a cold observable with no synchronous emissions. -/
def obsAction : ActionDef :=
  { params := []
    returnProp := .mk "obs" "class" (some observableClass) [strTemplateArg] false
    impl := fun _ => .ok { isObservable := true } }

/-- `list(): Collection<string>` with snapshot `["x", "y"]`. -/
def listAction : ActionDef :=
  { params := []
    returnProp := .mk "list" "class" (some collectionClass) [strTemplateArg] false
    impl := fun _ => .ok { isCollection := true, isObservable := true,
                           collModel := .vStr "model", collState := .vStr "st0",
                           collItems := [.vStr "x", .vStr "y"] } }

/-- `nogen(): Observable` declared without a template argument. -/
def nogenAction : ActionDef :=
  { params := []
    returnProp := .mk "nogen" "class" (some observableClass) [] false
    impl := fun _ => .ok { isObservable := true } }

/-- `fail(): number` whose body rejects. -/
def failAction : ActionDef :=
  { params := []
    returnProp := .mk "fail" "number" none [] false
    impl := fun _ => .error "boom" }

def testController : ControllerClass :=
  { className := "TestController"
    actions := [("add", addAction), ("sub", subAction), ("obs", obsAction),
                ("list", listAction), ("nogen", nogenAction), ("fail", failAction)] }

def envDemo : Env := { controllers := [("c1", testController)], injector := ["TestController"] }

/-! ## C3 -/

def branchTest : Branch → RuntimeValue → Bool
  | .entity, r => r.isEntitySubject
  | .collection, r => r.isCollection
  | .pushSource, r => r.isObservable
  | .plain, _ => true

/-- The spec's classification rule, stated as written: test the branches in
the fixed order entity-subject, collection, push-source, plain and take the
first match. -/
def specClassify (r : RuntimeValue) : Branch :=
  (([Branch.entity, .collection, .pushSource, .plain]).find? (fun b => branchTest b r)).getD .plain

/-- Claim C3: for every successfully invoked call, the awaited result is
classified by testing entity-subject, then collection, then push-source
(observable), then plain, in this fixed order, and the first matching
branch alone determines the response path: `classify` (the `instanceof`
chain of `handleAction`) agrees with the spec's first-match rule on every
runtime value, including overlaps (a collection that is also an observable
classifies as collection; an entity-subject never classifies as plain). -/
theorem claim_C3_classification_first_match : ∀ r : RuntimeValue, classify r = specClassify r := by
  intro r
  cases h1 : r.isEntitySubject <;> cases h2 : r.isCollection <;> cases h3 : r.isObservable <;>
    simp [classify, specClassify, branchTest, List.find?, h1, h2, h3]

/-- Claim C1, evidence of the code bug: for a call (ID 11) whose method
returns a latched subject (`BehaviorSubject` with current value "hi"), the
emitted trace places the `ResponseActionObservableNext` frame produced by
the server's auto-subscription (the subject replays its current value
synchronously during `subscribe`, lines 292–306) before the
`ResponseActionObservable` announcement frame (line 313) — the opposite of
the claimed order. -/
theorem claim_C1_next_precedes_announcement :
    (handleAction envDemo 11 "c1" "sub" [] initState).2.1 =
      [.invoked "c1" "sub" [],
       .frame 11 (.responseActionObservableNext 11 (.vStr "hi")),
       .frame 11 (.responseActionObservable .behaviorSubject)] := by decide

/-- Claim C2 counterexample: an action message naming an unregistered
controller makes `handleAction` throw (`No controller registered for id
nope` escapes as a rejected promise, third component `some …`) with no
error frame emitted — refuting the claim that every failure is caught
inside `handleAction` and reported as one error frame. -/
theorem claim_C2_counterexample :
    handleAction envDemo 7 "nope" "add" [] initState =
      (initState, [], some (.err "No controller registered for id nope")) := rfl

/-- Claim C2 amended: only failures inside the `try` block of line 229 —
the method invocation and everything after it — are caught in
`handleAction` and reported as exactly one error frame (here: a rejected
invocation produces exactly one error frame carrying the rejection and
nothing escapes); failures of the earlier stages (controller lookup, type
loading, injector resolution) escape to the caller, as the counterexample
shows. -/
theorem claim_C2_try_block_catches (env : Env) (cid : Nat) (c m : String) (args : List Value)
    (st : ServerState) {ct : ControllerClass} {types : ActionTypes} {st1 : ServerState}
    {ad : ActionDef} {emsg : String}
    (h1 : alook c env.controllers = some ct)
    (h2 : loadTypes env c m st = .ok (types, st1))
    (h3 : env.injector.contains ct.className = true)
    (h4 : parametersValidate types.parameters (deserializeArgs types.parameters args) = [])
    (h5 : alook m ct.actions = some ad)
    (h6 : ad.impl (deserializeArgs types.parameters args) = .error emsg) :
    handleAction env cid c m args st =
      (st1, [.invoked c m (deserializeArgs types.parameters args),
             .frame cid (.errorFrame (.err emsg))], none) := by
  simp [handleAction, h1, h2, h4, h5, h6]
  exact List.mem_of_elem_eq_true h3

theorem claim_C2_witness :
    handleAction envDemo 7 "c1" "fail" [] initState =
      ((loadTypes envDemo "c1" "fail" initState).toOption.map Prod.snd |>.getD initState,
       [.invoked "c1" "fail" [], .frame 7 (.errorFrame (.err "boom"))], none) :=
  claim_C2_try_block_catches envDemo 7 "c1" "fail" [] initState rfl rfl rfl rfl rfl rfl

/-- Claim C9: for every call whose decoded arguments produce a non-empty
validation failure list, exactly one `ValidationError` response carrying
that failure list is emitted and the controller method is never invoked
(the trace is exactly the one error frame); conversely, with an empty
failure list the call proceeds to invocation (the first emission is the
`invoked` marker). -/
theorem claim_C9_validation_gates_invocation (env : Env) (cid : Nat) (c m : String)
    (args : List Value) (st : ServerState)
    {ct : ControllerClass} {types : ActionTypes} {st1 : ServerState} {ad : ActionDef}
    (h1 : alook c env.controllers = some ct)
    (h2 : loadTypes env c m st = .ok (types, st1))
    (h3 : env.injector.contains ct.className = true)
    (h4 : alook m ct.actions = some ad) :
    (parametersValidate types.parameters (deserializeArgs types.parameters args) ≠ [] →
      handleAction env cid c m args st =
        (st1, [.frame cid (.errorFrame (.validationError
          (parametersValidate types.parameters (deserializeArgs types.parameters args))))], none)) ∧
    (parametersValidate types.parameters (deserializeArgs types.parameters args) = [] →
      (handleAction env cid c m args st).2.1.head? =
        some (.invoked c m (deserializeArgs types.parameters args))) := by
  constructor
  · intro h
    rcases hE : parametersValidate types.parameters (deserializeArgs types.parameters args) with
      _ | ⟨a, as⟩
    · exact absurd hE h
    · simp [handleAction, h1, h2, hE]
      exact List.mem_of_elem_eq_true h3
  · intro h
    rcases hI : ad.impl (deserializeArgs types.parameters args) with e | r <;>
      simp [handleAction, h1, h2, h, h4, hI, List.mem_of_elem_eq_true h3]

theorem claim_C9_witness :
    handleAction envDemo 7 "c1" "add" [.vStr "x", .vInt 3] initState =
      ((loadTypes envDemo "c1" "add" initState).toOption.map Prod.snd |>.getD initState,
       [.frame 7 (.errorFrame (.validationError [⟨"a", "invalid_type"⟩]))], none) :=
  (claim_C9_validation_gates_invocation envDemo 7 "c1" "add" [.vStr "x", .vInt 3] initState
    rfl rfl rfl rfl).1 (by decide)

/-- Claim C10: after `ActionObservableUnsubscribe` removes subscription ID
`subId` on call `cid` (which succeeds silently), a subsequent
`ActionObservableSubscribe` reusing the same `subId` succeeds — it emits
the source's synchronous replay rather than a `Subscription already
created` error — and installs a fresh subscription record that is present,
active and not cancelled: uniqueness is enforced only against currently
present subscriptions. -/
theorem claim_C10_resubscribe (cid subId : Nat) (st : ServerState)
    {entry : ObsEntry} {cl : SubClosure}
    (h1 : alook cid st.observables = some entry)
    (h2 : alook (cid, subId) st.observableSubscriptions = some cl)
    (h3 : cl.present = true) :
    (handleUnsubscribe cid subId st).2 = [] ∧
    (handleSubscribe cid subId (handleUnsubscribe cid subId st).1).2 =
      entry.syncReplay.map (fun v => Emit.frame cid (.responseActionObservableNext subId v)) ∧
    alook (cid, subId)
        (handleSubscribe cid subId (handleUnsubscribe cid subId st).1).1.observableSubscriptions =
      some ⟨true, true, false⟩ := by
  have hU : handleUnsubscribe cid subId st =
      ({ st with observableSubscriptions := (aset (cid, subId)
          { cl with present := false, active := false, cancelled := true }
          st.observableSubscriptions) }, []) := by
    simp [handleUnsubscribe, h1, h2, h3]
  rw [hU]
  refine ⟨rfl, ?_, ?_⟩ <;>
    simp [handleSubscribe, h1, subPresent, alook_aset_eq]

/-- Claim C8: if a method's declared return type is a wrapper class
(observable/push-source, collection, or promise/future) with no declared
template argument, `loadTypes` fails with the `MissingGeneric` error whose
message names both the method (via `ClassName.method`) and the wrapper
class name, and `handleAction` for such a call escapes with that same
error before anything is emitted — in particular the controller method is
never invoked (the trace contains no `invoked` marker). -/
theorem claim_C8_missing_generic (env : Env) (cid : Nat) (c m : String) (args : List Value)
    (st : ServerState) {ct : ControllerClass} {ad : ActionDef} {cr : ClassRef}
    (h1 : alook (cacheKey c m) st.cachedActionsTypes = none)
    (h2 : alook c env.controllers = some ct)
    (h3 : alook m ct.actions = some ad)
    (h4 : ad.returnProp.classType = some cr)
    (h5 : (cr.subObservable || cr.subCollection || cr.subPromise) = true)
    (h6 : ad.returnProp.templateArgs = []) :
    loadTypes env c m st =
      .error (.err (missingGenericMessage (ct.className ++ "." ++ m) cr.name m)) ∧
    handleAction env cid c m args st =
      (st, [], some (.err (missingGenericMessage (ct.className ++ "." ++ m) cr.name m))) ∧
    (∃ s1 s2 s3 : String,
      missingGenericMessage (ct.className ++ "." ++ m) cr.name m =
        s1 ++ m ++ s2 ++ cr.name ++ s3) := by
  have hL : loadTypes env c m st =
      .error (.err (missingGenericMessage (ct.className ++ "." ++ m) cr.name m)) := by
    simp [loadTypes, unwrapResultProperty, h1, h2, h3, isWrapper, h4, h5, h6, wrapperClassName]
  refine ⟨hL, ?_, ?_⟩
  · simp [handleAction, h2, hL]
  · refine ⟨"Your method " ++ ct.className ++ ".", " returns ",
      " and you have not specified a generic type using @t.generic() decorator. " ++
      "Please define the generic type of your " ++ cr.name ++
      "<T>, e.g. @t.generic(T), where T is your actual type. Any is now used, which is much slower to serialize and produces no class instances." ++
      "\nExample:" ++
      "\n   @t.generic(t.string)" ++
      "\n   " ++ m ++ "(): " ++ cr.name ++ "<string> \x7b\x7d" ++
      "\n   @t.generic(MyModel)" ++
      "\n   " ++ m ++ "(): " ++ cr.name ++ "<MyModel> \x7b\x7d", ?_⟩
    simp only [missingGenericMessage, strAppendAssoc]



set_option maxHeartbeats 1000000 in
theorem claim_C8_witness :
    loadTypes envDemo "c1" "nogen" initState =
      .error (.err (missingGenericMessage ("TestController" ++ "." ++ "nogen") "Observable" "nogen")) ∧
    handleAction envDemo 9 "c1" "nogen" [] initState =
      (initState, [], some (.err (missingGenericMessage ("TestController" ++ "." ++ "nogen") "Observable" "nogen"))) ∧
    (∃ s1 s2 s3 : String,
      missingGenericMessage ("TestController" ++ "." ++ "nogen") "Observable" "nogen" =
        s1 ++ "nogen" ++ s2 ++ "Observable" ++ s3) :=
  @claim_C8_missing_generic envDemo 9 "c1" "nogen" [] initState testController nogenAction
    observableClass rfl rfl rfl rfl rfl rfl

/-- A dispatcher state holding a live latched-subject call (ID 11) with one
client subscription (ID 1). -/
def stC10 : ServerState :=
  (run envDemo initState [.inAction 11 "c1" "sub" [], .inSubscribe 11 1]).1

theorem claim_C10_witness :
    (handleUnsubscribe 11 1 stC10).2 = [] ∧
    (handleSubscribe 11 1 (handleUnsubscribe 11 1 stC10).1).2 =
      [.frame 11 (.responseActionObservableNext 1 (.vStr "hi"))] ∧
    alook (11, 1)
        (handleSubscribe 11 1 (handleUnsubscribe 11 1 stC10).1).1.observableSubscriptions =
      some ⟨true, true, false⟩ :=
  claim_C10_resubscribe 11 1 stC10 rfl rfl rfl

/-! ## Trace predicates for the temporal claims -/

/-- The call id a frame emission correlates to (`none` for the invocation
marker). -/
def emitTag : Emit → Option Nat
  | .frame cid _ => some cid
  | .invoked _ _ _ => none

/-- Is this emission a `ResponseActionCollectionChange` frame for call `cid`? -/
def isChangeEmit (cid : Nat) : Emit → Bool
  | .frame cid' (.responseActionCollectionChange _) => cid' == cid
  | _ => false

/-- Is this emission a well-formed opening `ResponseActionCollection`
composite (model, state, set, in that order) for call `cid`? -/
def isOpeningEmit (cid : Nat) : Emit → Bool
  | .frame cid' (.responseActionCollection subs) =>
    cid' == cid &&
      (match subs with
       | [.collectionModel _, .collectionState _, .collectionSet _] => true
       | _ => false)
  | _ => false

/-- Is this emission a `ResponseActionObservableNext` frame for call `cid`
carrying subscription id `subId`? -/
def isNextFor (cid subId : Nat) : Emit → Bool
  | .frame cid' (.responseActionObservableNext id _) => cid' == cid && id == subId
  | _ => false

/-- Scans a trace: `true` iff no `ResponseActionCollectionChange` frame for
`cid` occurs before the first well-formed opening composite for `cid`
(i.e. the opening precedes every change frame). -/
def changesPreceded (cid : Nat) : List Emit → Bool
  | [] => true
  | em :: rest =>
    if isChangeEmit cid em then false
    else if isOpeningEmit cid em then true
    else changesPreceded cid rest

theorem isChangeEmit_of_tag_ne {cid : Nat} {em : Emit} (h : emitTag em ≠ some cid) :
    isChangeEmit cid em = false := by
  cases em with
  | invoked c m a => rfl
  | frame cid' f =>
    cases f <;> simp_all [emitTag, isChangeEmit]

theorem isOpeningEmit_of_tag_ne {cid : Nat} {em : Emit} (h : emitTag em ≠ some cid) :
    isOpeningEmit cid em = false := by
  cases em with
  | invoked c m a => rfl
  | frame cid' f =>
    cases f <;> simp_all [emitTag, isOpeningEmit]

theorem isNextFor_of_tag_ne {cid subId : Nat} {em : Emit} (h : emitTag em ≠ some cid) :
    isNextFor cid subId em = false := by
  cases em with
  | invoked c m a => rfl
  | frame cid' f =>
    cases f <;> simp_all [emitTag, isNextFor]

theorem changesPreceded_cons_neutral {cid : Nat} {em : Emit}
    (h1 : isChangeEmit cid em = false) (h2 : isOpeningEmit cid em = false)
    (tr : List Emit) : changesPreceded cid (em :: tr) = changesPreceded cid tr := by
  simp [changesPreceded, h1, h2]

theorem changesPreceded_neutral_append {cid : Nat} {xs : List Emit}
    (h : ∀ em ∈ xs, isChangeEmit cid em = false ∧ isOpeningEmit cid em = false) :
    ∀ tr, changesPreceded cid (xs ++ tr) = changesPreceded cid tr := by
  induction xs with
  | nil => intro tr; rfl
  | cons a as ih =>
    intro tr
    have ha := h a (by simp)
    rw [List.cons_append, changesPreceded_cons_neutral ha.1 ha.2]
    exact ih (fun em hm => h em (by simp [hm])) tr

theorem changesPreceded_opening {cid : Nat} {em : Emit}
    (h1 : isOpeningEmit cid em = true) (h2 : isChangeEmit cid em = false)
    (tr : List Emit) : changesPreceded cid (em :: tr) = true := by
  simp [changesPreceded, h1, h2]

/-- `dropSubsFor` keeps every key and every `active` flag. -/
theorem alook_dropSubsFor_active (cid' : Nat) (k : Nat × Nat) :
    ∀ l : List ((Nat × Nat) × SubClosure),
      (alook k (dropSubsFor cid' l)).map SubClosure.active =
        (alook k l).map SubClosure.active := by
  intro l
  induction l with
  | nil => rfl
  | cons hd tl ih =>
    rcases hd with ⟨hk, hv⟩
    simp only [dropSubsFor, List.map] at *
    by_cases hc : hk.1 = cid'
    · rw [if_pos hc]
      by_cases hke : k = hk
      · subst hke
        simp [alook]
      · simp [alook, hke, ih]
    · rw [if_neg hc]
      by_cases hke : k = hk
      · subst hke
        simp [alook]
      · simp [alook, hke, ih]

/-- `dropSubsFor cid` does not touch subscriptions of other calls. -/
theorem alook_dropSubsFor_ne (cid' : Nat) (k : Nat × Nat) (hk : k.1 ≠ cid') :
    ∀ l : List ((Nat × Nat) × SubClosure), alook k (dropSubsFor cid' l) = alook k l := by
  intro l
  induction l with
  | nil => rfl
  | cons hd tl ih =>
    rcases hd with ⟨hkk, hv⟩
    simp only [dropSubsFor, List.map] at *
    by_cases hc : hkk.1 = cid'
    · rw [if_pos hc]
      by_cases hke : k = hkk
      · subst hke
        exact absurd hc hk
      · simp [alook, hke, ih]
    · rw [if_neg hc]
      by_cases hke : k = hkk
      · subst hke
        simp [alook]
      · simp [alook, hke, ih]

/-! ## Effect lemmas for `loadTypes` -/

/-- A cache hit returns the cached entry and leaves the state unchanged. -/
theorem loadTypes_hit {env : Env} {c m : String} {st : ServerState} {t0 : ActionTypes}
    (hcache : alook (cacheKey c m) st.cachedActionsTypes = some t0) :
    loadTypes env c m st = .ok (t0, st) := by
  unfold loadTypes
  rw [hcache]

/-- A successful `loadTypes` either hit the cache (state unchanged) or
inserted a freshly built entry, whose `collectionSchema` is absent. -/
theorem loadTypes_ok_shape {env : Env} {c m : String} {st st1 : ServerState}
    {types : ActionTypes} (h : loadTypes env c m st = .ok (types, st1)) :
    (st1 = st ∧ alook (cacheKey c m) st.cachedActionsTypes = some types) ∨
    (st1 = { st with cachedActionsTypes :=
        (aset (cacheKey c m) types st.cachedActionsTypes) } ∧
      alook (cacheKey c m) st.cachedActionsTypes = none ∧
      types.collectionSchema = none) := by
  unfold loadTypes at h
  split at h
  · rename_i tHit heq
    injection h with h1
    injection h1 with hT hS
    subst hT
    subst hS
    exact Or.inl ⟨rfl, heq⟩
  · rename_i heq
    split at h
    · exact absurd h (by simp)
    · split at h
      · exact absurd h (by simp)
      · split at h
        · exact absurd h (by simp)
        · injection h with h1
          injection h1 with hT hS
          subst hT
          subst hS
          exact Or.inr ⟨rfl, heq, rfl⟩

theorem loadTypes_ok_fields {env : Env} {c m : String} {st st1 : ServerState}
    {types : ActionTypes} (h : loadTypes env c m st = .ok (types, st1)) :
    st1.observables = st.observables ∧
    st1.observableSubscriptions = st.observableSubscriptions ∧
    st1.collections = st.collections ∧
    st1.observableSubjects = st.observableSubjects := by
  rcases loadTypes_ok_shape h with ⟨hS, _⟩ | ⟨hS, _, _⟩ <;> subst hS <;>
    exact ⟨rfl, rfl, rfl, rfl⟩

theorem loadTypes_ok_cached {env : Env} {c m : String} {st st1 : ServerState}
    {types : ActionTypes} (h : loadTypes env c m st = .ok (types, st1)) :
    alook (cacheKey c m) st1.cachedActionsTypes = some types := by
  rcases loadTypes_ok_shape h with ⟨hS, hc⟩ | ⟨hS, hc, _⟩ <;> subst hS
  · exact hc
  · simp [alook_aset_eq]

theorem loadTypes_ok_cache_pres {env : Env} {c m : String} {st st1 : ServerState}
    {types : ActionTypes} (h : loadTypes env c m st = .ok (types, st1)) :
    ∀ key t, alook key st.cachedActionsTypes = some t →
      alook key st1.cachedActionsTypes = some t := by
  intro key t hk
  rcases loadTypes_ok_shape h with ⟨hS, _⟩ | ⟨hS, hc, _⟩ <;> subst hS
  · exact hk
  · have hne : key ≠ cacheKey c m := by
      intro he
      rw [he, hc] at hk
      exact Option.noConfusion hk
    simpa [alook_aset_ne hne] using hk

/-- How a cached `ActionTypes` entry may change over time: all fields except
`collectionSchema` are frozen, and `collectionSchema` may only step from
absent to the canonical lazily built schema, after which it is frozen. -/
def typesEvolves (t1 t2 : ActionTypes) : Prop :=
  t2.parameters = t1.parameters ∧
  t2.parameterSchema = t1.parameterSchema ∧
  t2.resultSchema = t1.resultSchema ∧
  t2.observableNextSchema = t1.observableNextSchema ∧
  (t2.collectionSchema = t1.collectionSchema ∨
    (t1.collectionSchema = none ∧
     t2.collectionSchema =
       some (mkCollectionSchema ((t1.resultSchema.getProperty "v").getD anyProperty))))

theorem typesEvolves_refl (t : ActionTypes) : typesEvolves t t :=
  ⟨rfl, rfl, rfl, rfl, Or.inl rfl⟩

theorem typesEvolves_trans {t1 t2 t3 : ActionTypes}
    (h12 : typesEvolves t1 t2) (h23 : typesEvolves t2 t3) : typesEvolves t1 t3 := by
  obtain ⟨a12, b12, c12, d12, e12⟩ := h12
  obtain ⟨a23, b23, c23, d23, e23⟩ := h23
  refine ⟨a23.trans a12, b23.trans b12, c23.trans c12, d23.trans d12, ?_⟩
  rcases e12 with e12 | ⟨n12, s12⟩
  · rcases e23 with e23 | ⟨n23, s23⟩
    · exact Or.inl (e23.trans e12)
    · exact Or.inr ⟨by rw [← e12, n23], by rw [s23, c12]⟩
  · rcases e23 with e23 | ⟨n23, s23⟩
    · exact Or.inr ⟨n12, e23.trans s12⟩
    · rw [s12] at n23
      exact Option.noConfusion n23

/-! ## Effect lemmas for `respondResult` -/

theorem respondResult_tag (cid : Nat) (c m : String) (types : ActionTypes)
    (r : RuntimeValue) (st1 : ServerState) :
    ∀ em ∈ (respondResult cid c m types r st1).2, emitTag em = some cid := by
  intro em hm
  unfold respondResult at hm
  split at hm
  · simp at hm
    subst hm
    rfl
  · simp at hm
    subst hm
    rfl
  · by_cases hs : r.isSubject <;> simp [hs] at hm
    · rcases hm with ⟨v, _, hv⟩ | hm
      · rw [← hv]
        rfl
      · subst hm
        rfl
    · subst hm
      rfl
  · simp at hm
    subst hm
    rfl

theorem respondResult_noChange (cid : Nat) (c m : String) (types : ActionTypes)
    (r : RuntimeValue) (st1 : ServerState) (k : Nat) :
    ∀ em ∈ (respondResult cid c m types r st1).2, isChangeEmit k em = false := by
  intro em hm
  unfold respondResult at hm
  split at hm
  · simp at hm
    subst hm
    simp [isChangeEmit]
  · simp at hm
    subst hm
    simp [isChangeEmit]
  · by_cases hs : r.isSubject <;> simp [hs] at hm
    · rcases hm with ⟨v, _, hv⟩ | hm
      · rw [← hv]
        simp [isChangeEmit]
      · subst hm
        simp [isChangeEmit]
    · subst hm
      simp [isChangeEmit]
  · simp at hm
    subst hm
    simp [isChangeEmit]

theorem respondResult_collections_ne (cid : Nat) (c m : String) (types : ActionTypes)
    (r : RuntimeValue) (st1 : ServerState) (k : Nat) (hk : k ≠ cid) :
    alook k (respondResult cid c m types r st1).1.collections = alook k st1.collections := by
  unfold respondResult
  split
  · rfl
  · split <;> simp [alook_aset_ne hk]
  · by_cases hs : r.isSubject <;> simp [hs]
  · rfl

theorem respondResult_activeMap (cid : Nat) (c m : String) (types : ActionTypes)
    (r : RuntimeValue) (st1 : ServerState) (k : Nat × Nat) :
    (alook k (respondResult cid c m types r st1).1.observableSubscriptions).map SubClosure.active =
      (alook k st1.observableSubscriptions).map SubClosure.active := by
  unfold respondResult
  split
  · rfl
  · split <;> rfl
  · by_cases hs : r.isSubject <;> simp [hs, alook_dropSubsFor_active]
  · rfl

theorem respondResult_self_coll (cid : Nat) (c m : String) (types : ActionTypes)
    (r : RuntimeValue) (st1 : ServerState)
    (hnone : alook cid st1.collections = none) :
    (alook cid (respondResult cid c m types r st1).1.collections = none ∧
      ∀ em ∈ (respondResult cid c m types r st1).2, isOpeningEmit cid em = false) ∨
    (respondResult cid c m types r st1).2 =
      [.frame cid (.responseActionCollection
        [.collectionModel r.collModel, .collectionState r.collState,
         .collectionSet r.collItems])] := by
  unfold respondResult
  split
  · left
    refine ⟨hnone, ?_⟩
    intro em hm
    simp at hm
    subst hm
    simp [isOpeningEmit]
  · right
    split <;> rfl
  · left
    constructor
    · by_cases hs : r.isSubject <;> simp [hs, hnone]
    · intro em hm
      by_cases hs : r.isSubject <;> simp [hs] at hm
      · rcases hm with ⟨v, _, hv⟩ | hm
        · rw [← hv]
          simp [isOpeningEmit]
        · subst hm
          simp [isOpeningEmit]
      · subst hm
        simp [isOpeningEmit]
  · left
    refine ⟨hnone, ?_⟩
    intro em hm
    simp at hm
    subst hm
    simp [isOpeningEmit]

theorem respondResult_cache (cid : Nat) (c m : String) (types : ActionTypes)
    (r : RuntimeValue) (st1 : ServerState)
    (hCached : alook (cacheKey c m) st1.cachedActionsTypes = some types) :
    ∀ key t, alook key st1.cachedActionsTypes = some t →
      ∃ t', alook key (respondResult cid c m types r st1).1.cachedActionsTypes = some t' ∧
        typesEvolves t t' := by
  intro key t hk
  unfold respondResult
  split
  · exact ⟨t, hk, typesEvolves_refl t⟩
  · split
    · exact ⟨t, hk, typesEvolves_refl t⟩
    · rename_i hnone
      by_cases hkey : key = cacheKey c m
      · subst hkey
        have ht : t = types := by
          rw [hk] at hCached
          exact Option.some.inj hCached
        subst ht
        refine ⟨{ t with collectionSchema := (some (mkCollectionSchema ((t.resultSchema.getProperty "v").getD anyProperty))) },
          by simp [alook_aset_eq], rfl, rfl, rfl, rfl, Or.inr ⟨hnone, rfl⟩⟩
      · exact ⟨t, by simp [alook_aset_ne hkey, hk], typesEvolves_refl t⟩
  · by_cases hs : r.isSubject
    · exact ⟨t, by simp [hs, hk], typesEvolves_refl t⟩
    · exact ⟨t, by simp [hs, hk], typesEvolves_refl t⟩
  · exact ⟨t, hk, typesEvolves_refl t⟩

/-! ## Inversion of `handleAction` -/

/-- Every run of `handleAction` has one of five shapes: an escape before
`loadTypes` succeeded (state untouched), an escape after it (only the cache
touched), a validation error frame, a caught invocation error frame, or an
invocation marker followed by the result branch of `respondResult`. -/
theorem handleAction_shape (env : Env) (cid : Nat) (c m : String) (args : List Value)
    (st : ServerState) :
    (∃ e, handleAction env cid c m args st = (st, [], some e)) ∨
    (∃ types st1, loadTypes env c m st = .ok (types, st1) ∧
      ((∃ e, handleAction env cid c m args st = (st1, [], some e)) ∨
       (∃ errs, handleAction env cid c m args st =
         (st1, [.frame cid (.errorFrame (.validationError errs))], none)) ∨
       (∃ conv emsg, handleAction env cid c m args st =
         (st1, [.invoked c m conv, .frame cid (.errorFrame (.err emsg))], none)) ∨
       (∃ conv r, handleAction env cid c m args st =
         ((respondResult cid c m types r st1).1,
          .invoked c m conv :: (respondResult cid c m types r st1).2, none) ∧
         alook (cacheKey c m) st1.cachedActionsTypes = some types))) := by
  unfold handleAction
  split
  · exact Or.inl ⟨_, rfl⟩
  · split
    · exact Or.inl ⟨_, rfl⟩
    · rename_i p heq
      refine Or.inr ⟨_, _, heq, ?_⟩
      split
      · split
        · split
          · exact Or.inl ⟨_, rfl⟩
          · split
            · exact Or.inr (Or.inr (Or.inl ⟨_, _, rfl⟩))
            · exact Or.inr (Or.inr (Or.inr ⟨_, _, rfl, loadTypes_ok_cached heq⟩))
        · exact Or.inr (Or.inl ⟨_, rfl⟩)
      · exact Or.inl ⟨_, rfl⟩


theorem handleAction_tag (env : Env) (cid : Nat) (c m : String) (args : List Value)
    (st : ServerState) :
    ∀ em ∈ (handleAction env cid c m args st).2.1, emitTag em = none ∨ emitTag em = some cid := by
  intro em hm
  rcases handleAction_shape env cid c m args st with ⟨e, hEq⟩ |
    ⟨types, st1, hLoad, ⟨e, hEq⟩ | ⟨errs, hEq⟩ | ⟨conv, emsg, hEq⟩ | ⟨conv, r, hEq, hCached⟩⟩ <;>
      rw [hEq] at hm <;> simp at hm
  · subst hm
    exact Or.inr rfl
  · rcases hm with hm | hm
    · subst hm
      exact Or.inl rfl
    · subst hm
      exact Or.inr rfl
  · rcases hm with hm | hm
    · subst hm
      exact Or.inl rfl
    · exact Or.inr (respondResult_tag cid c m types r st1 em hm)

theorem handleAction_noChange (env : Env) (cid : Nat) (c m : String) (args : List Value)
    (st : ServerState) (k : Nat) :
    ∀ em ∈ (handleAction env cid c m args st).2.1, isChangeEmit k em = false := by
  intro em hm
  rcases handleAction_shape env cid c m args st with ⟨e, hEq⟩ |
    ⟨types, st1, hLoad, ⟨e, hEq⟩ | ⟨errs, hEq⟩ | ⟨conv, emsg, hEq⟩ | ⟨conv, r, hEq, hCached⟩⟩ <;>
      rw [hEq] at hm <;> simp at hm
  · subst hm
    rfl
  · rcases hm with hm | hm <;> subst hm <;> rfl
  · rcases hm with hm | hm
    · subst hm
      rfl
    · exact respondResult_noChange cid c m types r st1 k em hm

theorem handleAction_collections_ne (env : Env) (cid : Nat) (c m : String) (args : List Value)
    (st : ServerState) (k : Nat) (hk : k ≠ cid) :
    alook k (handleAction env cid c m args st).1.collections = alook k st.collections := by
  rcases handleAction_shape env cid c m args st with ⟨e, hEq⟩ | ⟨types, st1, hLoad, hrest⟩
  · rw [hEq]
  · have hf := (loadTypes_ok_fields hLoad).2.2.1
    rcases hrest with ⟨e, hEq⟩ | ⟨errs, hEq⟩ | ⟨conv, emsg, hEq⟩ | ⟨conv, r, hEq, hCached⟩
    · rw [hEq]
      simp [hf]
    · rw [hEq]
      simp [hf]
    · rw [hEq]
      simp [hf]
    · rw [hEq]
      rw [respondResult_collections_ne cid c m types r st1 k hk, hf]

theorem handleAction_activeMap (env : Env) (cid : Nat) (c m : String) (args : List Value)
    (st : ServerState) (k : Nat × Nat) :
    (alook k (handleAction env cid c m args st).1.observableSubscriptions).map SubClosure.active =
      (alook k st.observableSubscriptions).map SubClosure.active := by
  rcases handleAction_shape env cid c m args st with ⟨e, hEq⟩ | ⟨types, st1, hLoad, hrest⟩
  · rw [hEq]
  · have hf := (loadTypes_ok_fields hLoad).2.1
    rcases hrest with ⟨e, hEq⟩ | ⟨errs, hEq⟩ | ⟨conv, emsg, hEq⟩ | ⟨conv, r, hEq, hCached⟩
    · rw [hEq]
      simp [hf]
    · rw [hEq]
      simp [hf]
    · rw [hEq]
      simp [hf]
    · rw [hEq]
      rw [respondResult_activeMap cid c m types r st1 k, hf]

theorem handleAction_self_coll (env : Env) (cid : Nat) (c m : String) (args : List Value)
    (st : ServerState) (hnone : alook cid st.collections = none) :
    (alook cid (handleAction env cid c m args st).1.collections = none ∧
      ∀ em ∈ (handleAction env cid c m args st).2.1, isOpeningEmit cid em = false) ∨
    (∃ conv mo sx it, (handleAction env cid c m args st).2.1 =
      [.invoked c m conv, .frame cid (.responseActionCollection
        [.collectionModel mo, .collectionState sx, .collectionSet it])]) := by
  rcases handleAction_shape env cid c m args st with ⟨e, hEq⟩ | ⟨types, st1, hLoad, hrest⟩
  · rw [hEq]
    exact Or.inl ⟨hnone, by simp⟩
  · have hf := (loadTypes_ok_fields hLoad).2.2.1
    have hnone1 : alook cid st1.collections = none := by rw [hf]; exact hnone
    rcases hrest with ⟨e, hEq⟩ | ⟨errs, hEq⟩ | ⟨conv, emsg, hEq⟩ | ⟨conv, r, hEq, hCached⟩
    · rw [hEq]
      exact Or.inl ⟨hnone1, by simp⟩
    · rw [hEq]
      refine Or.inl ⟨hnone1, ?_⟩
      intro em hm
      simp at hm
      subst hm
      rfl
    · rw [hEq]
      refine Or.inl ⟨hnone1, ?_⟩
      intro em hm
      simp at hm
      rcases hm with hm | hm <;> subst hm <;> rfl
    · rcases respondResult_self_coll cid c m types r st1 hnone1 with ⟨hn, hop⟩ | hout
      · rw [hEq]
        refine Or.inl ⟨hn, ?_⟩
        intro em hm
        simp at hm
        rcases hm with hm | hm
        · subst hm
          rfl
        · exact hop em hm
      · right
        rw [hEq]
        exact ⟨conv, r.collModel, r.collState, r.collItems, by rw [hout]⟩

theorem handleAction_cache (env : Env) (cid : Nat) (c m : String) (args : List Value)
    (st : ServerState) :
    ∀ key t, alook key st.cachedActionsTypes = some t →
      ∃ t', alook key (handleAction env cid c m args st).1.cachedActionsTypes = some t' ∧
        typesEvolves t t' := by
  intro key t hk
  rcases handleAction_shape env cid c m args st with ⟨e, hEq⟩ | ⟨types, st1, hLoad, hrest⟩
  · rw [hEq]
    exact ⟨t, hk, typesEvolves_refl t⟩
  · have hk1 := loadTypes_ok_cache_pres hLoad key t hk
    rcases hrest with ⟨e, hEq⟩ | ⟨errs, hEq⟩ | ⟨conv, emsg, hEq⟩ | ⟨conv, r, hEq, hCached⟩
    · rw [hEq]
      exact ⟨t, hk1, typesEvolves_refl t⟩
    · rw [hEq]
      exact ⟨t, hk1, typesEvolves_refl t⟩
    · rw [hEq]
      exact ⟨t, hk1, typesEvolves_refl t⟩
    · rw [hEq]
      exact respondResult_cache cid c m types r st1 hCached key t hk1

/-! ## Step-level lemmas -/

def isActionFor (cid : Nat) : InputEvent → Bool
  | .inAction cid' _ _ _ => cid' == cid
  | _ => false

theorem applyCollectionEvent_unsubscribed (ev : CollectionEvent) (cl : CollClosure) :
    (applyCollectionEvent ev cl).unsubscribed = cl.unsubscribed := by
  cases ev <;> rfl

/-- Once a collection closure's drop flag is set, no step of the dispatcher
clears it (absent a new action on the same call id), and no step emits a
`ResponseActionCollectionChange` frame for that call. -/
theorem step_C5 (env : Env) (st : ServerState) (e : InputEvent) (cid : Nat)
    (hna : isActionFor cid e = false)
    (hI : (alook cid st.collections).map CollClosure.unsubscribed = some true) :
    ((alook cid (step env st e).1.collections).map CollClosure.unsubscribed = some true) ∧
    (∀ em ∈ (step env st e).2, isChangeEmit cid em = false) := by
  cases e with
  | inAction cid' c m args =>
    have hne : cid ≠ cid' := by
      intro h
      subst h
      simp [isActionFor] at hna
    simp only [step]
    constructor
    · rw [handleAction_collections_ne env cid' c m args st cid hne]
      exact hI
    · exact handleAction_noChange env cid' c m args st cid
  | inSubscribe cid' subId' =>
    simp only [step]
    unfold handleSubscribe
    split
    · exact ⟨hI, by intro em hm; simp at hm; subst hm; rfl⟩
    · split
      · exact ⟨hI, by intro em hm; simp at hm; subst hm; rfl⟩
      · refine ⟨hI, ?_⟩
        intro em hm
        simp at hm
        rcases hm with ⟨v, _, hv⟩
        rw [← hv]
        rfl
  | inUnsubscribe cid' subId' =>
    simp only [step]
    unfold handleUnsubscribe
    split
    · exact ⟨hI, by intro em hm; simp at hm; subst hm; rfl⟩
    · split
      · exact ⟨hI, by intro em hm; simp at hm; subst hm; rfl⟩
      · split
        · exact ⟨hI, by intro em hm; simp at hm⟩
        · exact ⟨hI, by intro em hm; simp at hm; subst hm; rfl⟩
  | inSubjectUnsubscribe cid' =>
    simp only [step]
    unfold handleSubjectUnsubscribe
    split
    · exact ⟨hI, by intro em hm; simp at hm; subst hm; rfl⟩
    · exact ⟨hI, by intro em hm; simp at hm⟩
  | inCollectionUnsubscribe cid' =>
    simp only [step]
    unfold handleCollectionUnsubscribe
    split
    · exact ⟨hI, by intro em hm; simp at hm; subst hm; rfl⟩
    · rename_i cl hcl
      split
      · constructor
        · by_cases hc : cid = cid'
          · subst hc
            simp [alook_aset_eq]
          · rw [alook_aset_ne hc]
            exact hI
        · intro em hm
          simp at hm
      · exact ⟨hI, by intro em hm; simp at hm; subst hm; rfl⟩
  | obsDeliver cid' subId' ev f =>
    simp only [step]
    unfold obsDeliverStep
    split
    · exact ⟨hI, by intro em hm; simp at hm⟩
    · rename_i cl hcl
      split
      · exact ⟨hI, by intro em hm; simp at hm⟩
      · refine ⟨hI, ?_⟩
        intro em hm
        cases ev with
        | nextE v =>
          by_cases ha : cl.active <;> simp [ha] at hm
          subst hm
          rfl
        | errorE msg =>
          simp at hm
          subst hm
          rfl
        | completeE =>
          simp at hm
          subst hm
          rfl
  | subjDeliver cid' ev f =>
    simp only [step]
    unfold subjDeliverStep
    split
    · exact ⟨hI, by intro em hm; simp at hm⟩
    · rename_i se hse
      split
      · exact ⟨hI, by intro em hm; simp at hm⟩
      · refine ⟨hI, ?_⟩
        intro em hm
        cases ev <;> simp at hm <;> subst hm <;> rfl
  | collEmit cid' ev =>
    simp only [step]
    unfold collEmitStep
    split
    · exact ⟨hI, by intro em hm; simp at hm⟩
    · rename_i cl hcl
      split
      · exact ⟨hI, by intro em hm; simp at hm⟩
      · constructor
        · by_cases hc : cid = cid'
          · subst hc
            rw [hcl] at hI
            simp at hI
            simp [alook_aset_eq, applyCollectionEvent_unsubscribed, hI]
          · rw [alook_aset_ne hc]
            exact hI
        · intro em hm
          simp at hm
  | collFlush cid' =>
    simp only [step]
    unfold collFlushStep
    split
    · exact ⟨hI, by intro em hm; simp at hm⟩
    · rename_i cl hcl
      split
      · exact ⟨hI, by intro em hm; simp at hm⟩
      · split
        · constructor
          · by_cases hc : cid = cid'
            · subst hc
              rw [hcl] at hI
              simp at hI
              simp [alook_aset_eq, hI]
            · rw [alook_aset_ne hc]
              exact hI
          · intro em hm
            simp at hm
        · rename_i hnu
          by_cases hc : cid = cid'
          · subst hc
            rw [hcl] at hI
            simp at hI
            exact absurd hI hnu
          · constructor
            · rw [alook_aset_ne hc]
              exact hI
            · intro em hm
              simp at hm
              subst hm
              simp [isChangeEmit]
              exact fun h => hc h.symm

theorem run_C5 (env : Env) (cid : Nat) :
    ∀ (evs : List InputEvent) (st : ServerState),
      (∀ e ∈ evs, isActionFor cid e = false) →
      (alook cid st.collections).map CollClosure.unsubscribed = some true →
      ∀ em ∈ (run env st evs).2, isChangeEmit cid em = false := by
  intro evs
  induction evs with
  | nil =>
    intro st _ _ em hm
    simp [run] at hm
  | cons e es ih =>
    intro st hna hI em hm
    have hst := step_C5 env st e cid (hna e (by simp)) hI
    simp only [run] at hm
    rw [List.mem_append] at hm
    rcases hm with hm | hm
    · exact hst.2 em hm
    · exact ih (step env st e).1 (fun e' he' => hna e' (by simp [he'])) hst.1 em hm

/-- Claim C5: after the unsubscribe closure of the CollectionEntry for call
ID `cid` has run (via a `ResponseActionCollectionUnsubscribe` message,
which succeeds silently), no `ResponseActionCollectionChange` frame is
emitted for `cid` by any later dispatcher step — even if the collection's
change source emits further events or a batch was already pending, because
the drop flag is checked before any frame of a batch is built or sent.
(The claim presumes the call id is not recycled: the later events contain
no new `Action` message with the same id.) -/
theorem claim_C5_no_change_after_unsubscribe (env : Env) (st : ServerState) (cid : Nat)
    (evs : List InputEvent)
    (hPresent : (alook cid st.collections).map CollClosure.present = some true)
    (hNoAct : ∀ e ∈ evs, isActionFor cid e = false) :
    (step env st (.inCollectionUnsubscribe cid)).2 = [] ∧
    ∀ em ∈ (run env (step env st (.inCollectionUnsubscribe cid)).1 evs).2,
      isChangeEmit cid em = false := by
  obtain ⟨cl, hcl, hp⟩ : ∃ cl, alook cid st.collections = some cl ∧ cl.present = true := by
    rcases hlk : alook cid st.collections with _ | cl
    · rw [hlk] at hPresent
      simp at hPresent
    · rw [hlk] at hPresent
      simp at hPresent
      exact ⟨cl, rfl, hPresent⟩
  have hstep : step env st (.inCollectionUnsubscribe cid) =
      ({ st with collections := (aset cid
          { cl with present := false, unsubscribed := true, feedClosed := true }
          st.collections) }, []) := by
    simp only [step]
    unfold handleCollectionUnsubscribe
    rw [hcl]
    simp [hp]
  constructor
  · rw [hstep]
  · rw [hstep]
    exact run_C5 env cid evs _ hNoAct (by simp [alook_aset_eq])

/-- A dispatcher state holding a live collection call (ID 9) with a change
batch already collected for the next microtask but not yet flushed. -/
def stC5 : ServerState :=
  (run envDemo initState [.inAction 9 "c1" "list" [], .collEmit 9 (.add [.vStr "z"])]).1

def evsC5 : List InputEvent :=
  [.collFlush 9, .collEmit 9 (.set []), .collFlush 9]

theorem claim_C5_witness :
    (step envDemo stC5 (.inCollectionUnsubscribe 9)).2 = [] ∧
    ((run envDemo (step envDemo stC5 (.inCollectionUnsubscribe 9)).1 evsC5).2.all
      (fun em => !(isChangeEmit 9 em))) = true := by
  have h := claim_C5_no_change_after_unsubscribe envDemo stC5 9 evsC5 rfl (by decide)
  refine ⟨h.1, List.all_eq_true.mpr ?_⟩
  intro em hm
  simpa using h.2 em hm

/-- While no collection closure exists for `cid`, a dispatcher step either
keeps it absent and emits nothing change- or opening-like for `cid`, or it
is the action step that installs the closure and its trace is exactly an
invocation marker followed by the well-formed opening composite. -/
theorem step_C7 (env : Env) (st : ServerState) (e : InputEvent) (cid : Nat)
    (hnone : alook cid st.collections = none) :
    (alook cid (step env st e).1.collections = none ∧
      ∀ em ∈ (step env st e).2, isChangeEmit cid em = false ∧ isOpeningEmit cid em = false)
    ∨ (∃ a b, (step env st e).2 = [a, b] ∧
        isChangeEmit cid a = false ∧ isOpeningEmit cid a = false ∧
        isOpeningEmit cid b = true ∧ isChangeEmit cid b = false) := by
  cases e with
  | inAction cid' c m args =>
    by_cases hc : cid' = cid
    · subst hc
      simp only [step]
      rcases handleAction_self_coll env cid' c m args st hnone with ⟨hn, hop⟩ | ⟨conv, mo, sx, it, hout⟩
      · left
        refine ⟨hn, ?_⟩
        intro em hm
        exact ⟨handleAction_noChange env cid' c m args st cid' em hm, hop em hm⟩
      · right
        refine ⟨_, _, hout, rfl, rfl, ?_, rfl⟩
        simp [isOpeningEmit]
    · left
      simp only [step]
      constructor
      · rw [handleAction_collections_ne env cid' c m args st cid (fun h => hc h.symm)]
        exact hnone
      · intro em hm
        refine ⟨handleAction_noChange env cid' c m args st cid em hm, ?_⟩
        rcases handleAction_tag env cid' c m args st em hm with ht | ht
        · exact isOpeningEmit_of_tag_ne (by rw [ht]; exact Option.noConfusion)
        · exact isOpeningEmit_of_tag_ne (by rw [ht]; intro hx; exact hc (Option.some.inj hx))
  | inSubscribe cid' subId' =>
    left
    simp only [step]
    unfold handleSubscribe
    split
    · exact ⟨hnone, by intro em hm; simp at hm; subst hm; exact ⟨rfl, rfl⟩⟩
    · split
      · exact ⟨hnone, by intro em hm; simp at hm; subst hm; exact ⟨rfl, rfl⟩⟩
      · refine ⟨hnone, ?_⟩
        intro em hm
        simp at hm
        rcases hm with ⟨v, _, hv⟩
        rw [← hv]
        exact ⟨rfl, rfl⟩
  | inUnsubscribe cid' subId' =>
    left
    simp only [step]
    unfold handleUnsubscribe
    split
    · exact ⟨hnone, by intro em hm; simp at hm; subst hm; exact ⟨rfl, rfl⟩⟩
    · split
      · exact ⟨hnone, by intro em hm; simp at hm; subst hm; exact ⟨rfl, rfl⟩⟩
      · split
        · exact ⟨hnone, by intro em hm; simp at hm⟩
        · exact ⟨hnone, by intro em hm; simp at hm; subst hm; exact ⟨rfl, rfl⟩⟩
  | inSubjectUnsubscribe cid' =>
    left
    simp only [step]
    unfold handleSubjectUnsubscribe
    split
    · exact ⟨hnone, by intro em hm; simp at hm; subst hm; exact ⟨rfl, rfl⟩⟩
    · exact ⟨hnone, by intro em hm; simp at hm⟩
  | inCollectionUnsubscribe cid' =>
    left
    simp only [step]
    unfold handleCollectionUnsubscribe
    by_cases hc : cid' = cid
    · subst hc
      rw [hnone]
      exact ⟨hnone, by intro em hm; simp at hm; subst hm; exact ⟨rfl, rfl⟩⟩
    · split
      · exact ⟨hnone, by intro em hm; simp at hm; subst hm; exact ⟨rfl, rfl⟩⟩
      · split
        · constructor
          · rw [alook_aset_ne (fun h => hc h.symm)]
            exact hnone
          · intro em hm
            simp at hm
        · exact ⟨hnone, by intro em hm; simp at hm; subst hm; exact ⟨rfl, rfl⟩⟩
  | obsDeliver cid' subId' ev f =>
    left
    simp only [step]
    unfold obsDeliverStep
    split
    · exact ⟨hnone, by intro em hm; simp at hm⟩
    · rename_i cl hcl
      split
      · exact ⟨hnone, by intro em hm; simp at hm⟩
      · refine ⟨hnone, ?_⟩
        intro em hm
        cases ev with
        | nextE v =>
          by_cases ha : cl.active <;> simp [ha] at hm
          subst hm
          exact ⟨rfl, rfl⟩
        | errorE msg =>
          simp at hm
          subst hm
          exact ⟨rfl, rfl⟩
        | completeE =>
          simp at hm
          subst hm
          exact ⟨rfl, rfl⟩
  | subjDeliver cid' ev f =>
    left
    simp only [step]
    unfold subjDeliverStep
    split
    · exact ⟨hnone, by intro em hm; simp at hm⟩
    · split
      · exact ⟨hnone, by intro em hm; simp at hm⟩
      · refine ⟨hnone, ?_⟩
        intro em hm
        cases ev <;> simp at hm <;> subst hm <;> exact ⟨rfl, rfl⟩
  | collEmit cid' ev =>
    left
    simp only [step]
    unfold collEmitStep
    by_cases hc : cid' = cid
    · subst hc
      rw [hnone]
      exact ⟨hnone, by intro em hm; simp at hm⟩
    · split
      · exact ⟨hnone, by intro em hm; simp at hm⟩
      · split
        · exact ⟨hnone, by intro em hm; simp at hm⟩
        · constructor
          · rw [alook_aset_ne (fun h => hc h.symm)]
            exact hnone
          · intro em hm
            simp at hm
  | collFlush cid' =>
    left
    simp only [step]
    unfold collFlushStep
    by_cases hc : cid' = cid
    · subst hc
      rw [hnone]
      exact ⟨hnone, by intro em hm; simp at hm⟩
    · split
      · exact ⟨hnone, by intro em hm; simp at hm⟩
      · split
        · exact ⟨hnone, by intro em hm; simp at hm⟩
        · split
          · constructor
            · rw [alook_aset_ne (fun h => hc h.symm)]
              exact hnone
            · intro em hm
              simp at hm
          · constructor
            · rw [alook_aset_ne (fun h => hc h.symm)]
              exact hnone
            · intro em hm
              simp at hm
              subst hm
              constructor
              · simp [isChangeEmit]
                exact fun h => hc h
              · rfl

theorem run_C7 (env : Env) (cid : Nat) :
    ∀ (evs : List InputEvent) (st : ServerState),
      alook cid st.collections = none →
      changesPreceded cid (run env st evs).2 = true := by
  intro evs
  induction evs with
  | nil =>
    intro st _
    rfl
  | cons e es ih =>
    intro st hnone
    simp only [run]
    rcases step_C7 env st e cid hnone with ⟨hn, hneutral⟩ | ⟨a, b, hout, hca, hoa, hob, hcb⟩
    · rw [changesPreceded_neutral_append hneutral]
      exact ih (step env st e).1 hn
    · rw [hout, List.cons_append, List.cons_append,
        changesPreceded_cons_neutral hca hoa, changesPreceded_opening hob hcb]

/-- Claim C7: for every call returning a collection, the first frame emitted
for that call is a single composite `ResponseActionCollection` whose
sub-frames are exactly model, state and the `all()` snapshot, in that order
(second conjunct: the trace of the action step is exactly the invocation
marker followed by that one composite), and in every run of the dispatcher
from its initial state this opening composite precedes every
`ResponseActionCollectionChange` frame of the same call (first conjunct:
the trace scanner finds no change frame before a well-formed opening). -/
theorem claim_C7_collection_opening (env : Env) (evs : List InputEvent) (cid : Nat)
    (c m : String) (args : List Value) (st : ServerState)
    {ct : ControllerClass} {types : ActionTypes} {st1 : ServerState} {ad : ActionDef}
    {r : RuntimeValue}
    (h1 : alook c env.controllers = some ct)
    (h2 : loadTypes env c m st = .ok (types, st1))
    (h3 : env.injector.contains ct.className = true)
    (h4 : parametersValidate types.parameters (deserializeArgs types.parameters args) = [])
    (h5 : alook m ct.actions = some ad)
    (h6 : ad.impl (deserializeArgs types.parameters args) = .ok r)
    (h7 : classify r = .collection) :
    changesPreceded cid (run env initState evs).2 = true ∧
    (handleAction env cid c m args st).2.1 =
      [.invoked c m (deserializeArgs types.parameters args),
       .frame cid (.responseActionCollection
         [.collectionModel r.collModel, .collectionState r.collState,
          .collectionSet r.collItems])] := by
  constructor
  · exact run_C7 env cid evs initState rfl
  · have hresp : (respondResult cid c m types r st1).2 =
        [.frame cid (.responseActionCollection
          [.collectionModel r.collModel, .collectionState r.collState,
           .collectionSet r.collItems])] := by
      unfold respondResult
      rw [h7]
    simp [handleAction, h1, h2, h4, h5, h6, List.mem_of_elem_eq_true h3, hresp]

def evsC7 : List InputEvent :=
  [.inAction 9 "c1" "list" [], .collEmit 9 (.add [.vStr "z"]), .collFlush 9]

theorem claim_C7_witness :
    changesPreceded 9 (run envDemo initState evsC7).2 = true ∧
    (handleAction envDemo 9 "c1" "list" [] initState).2.1 =
      [.invoked "c1" "list" [],
       .frame 9 (.responseActionCollection
         [.collectionModel (.vStr "model"), .collectionState (.vStr "st0"),
          .collectionSet [.vStr "x", .vStr "y"]])] :=
  claim_C7_collection_opening envDemo evsC7 9 "c1" "list" [] initState
    rfl rfl rfl rfl rfl rfl rfl

/-- Events that may legitimately produce new `ResponseActionObservableNext`
frames for `(cid, subId)` after an unsubscribe: a fresh subscription with
the same ids, a new action on the same call id, or a delivery on the
subject auto-subscription channel of that call. -/
def excludedC6 (cid subId : Nat) : InputEvent → Bool
  | .inAction cid' _ _ _ => cid' == cid
  | .inSubscribe cid' subId' => cid' == cid && subId' == subId
  | .subjDeliver cid' _ _ => cid' == cid
  | _ => false

/-- Once a subscription closure's `active` flag is cleared, no step of the
dispatcher (other than the excluded ones) sets it again or emits a
`ResponseActionObservableNext` frame carrying that subscription id for that
call: the next callback is gated by `active`. -/
theorem step_C6 (env : Env) (st : ServerState) (e : InputEvent) (cid subId : Nat)
    (hna : excludedC6 cid subId e = false)
    (hI : (alook (cid, subId) st.observableSubscriptions).map SubClosure.active = some false) :
    ((alook (cid, subId) (step env st e).1.observableSubscriptions).map SubClosure.active =
      some false) ∧
    (∀ em ∈ (step env st e).2, isNextFor cid subId em = false) := by
  cases e with
  | inAction cid' c m args =>
    have hne : cid' ≠ cid := by
      intro h
      subst h
      simp [excludedC6] at hna
    simp only [step]
    constructor
    · rw [handleAction_activeMap env cid' c m args st (cid, subId)]
      exact hI
    · intro em hm
      rcases handleAction_tag env cid' c m args st em hm with ht | ht
      · exact isNextFor_of_tag_ne (by rw [ht]; exact Option.noConfusion)
      · exact isNextFor_of_tag_ne (by rw [ht]; intro hx; exact hne (Option.some.inj hx))
  | inSubscribe cid' subId' =>
    have hkey : ((cid' : Nat), (subId' : Nat)) ≠ (cid, subId) := by
      intro h
      injection h with h1 h2
      subst h1
      subst h2
      simp [excludedC6] at hna
    simp only [step]
    unfold handleSubscribe
    split
    · exact ⟨hI, by intro em hm; simp at hm; subst hm; rfl⟩
    · split
      · exact ⟨hI, by intro em hm; simp at hm; subst hm; rfl⟩
      · constructor
        · rw [alook_aset_ne (fun h => hkey h.symm)]
          exact hI
        · intro em hm
          simp at hm
          rcases hm with ⟨v, _, hv⟩
          rw [← hv]
          by_cases h1 : cid' = cid
          · subst h1
            simp [excludedC6] at hna
            simp [isNextFor, hna]
          · simp [isNextFor, h1]
  | inUnsubscribe cid' subId' =>
    simp only [step]
    unfold handleUnsubscribe
    split
    · exact ⟨hI, by intro em hm; simp at hm; subst hm; rfl⟩
    · split
      · exact ⟨hI, by intro em hm; simp at hm; subst hm; rfl⟩
      · split
        · rename_i cl hcl hp
          constructor
          · by_cases hkey : ((cid, subId) : Nat × Nat) = (cid', subId')
            · rw [hkey]
              simp [alook_aset_eq]
            · rw [alook_aset_ne hkey]
              exact hI
          · intro em hm
            simp at hm
        · exact ⟨hI, by intro em hm; simp at hm; subst hm; rfl⟩
  | inSubjectUnsubscribe cid' =>
    simp only [step]
    unfold handleSubjectUnsubscribe
    split
    · exact ⟨hI, by intro em hm; simp at hm; subst hm; rfl⟩
    · exact ⟨hI, by intro em hm; simp at hm⟩
  | inCollectionUnsubscribe cid' =>
    simp only [step]
    unfold handleCollectionUnsubscribe
    split
    · exact ⟨hI, by intro em hm; simp at hm; subst hm; rfl⟩
    · split
      · exact ⟨hI, by intro em hm; simp at hm⟩
      · exact ⟨hI, by intro em hm; simp at hm; subst hm; rfl⟩
  | obsDeliver cid' subId' ev f =>
    simp only [step]
    unfold obsDeliverStep
    split
    · exact ⟨hI, by intro em hm; simp at hm⟩
    · rename_i cl hcl
      split
      · exact ⟨hI, by intro em hm; simp at hm⟩
      · by_cases hkey : ((cid', subId') : Nat × Nat) = (cid, subId)
        · injection hkey with hk1 hk2
          subst hk1
          subst hk2
          rw [hcl] at hI
          simp at hI
          constructor
          · cases ev <;> simp [alook_aset_eq, hI]
          · intro em hm
            cases ev with
            | nextE v =>
              simp [hI] at hm
            | errorE msg =>
              simp at hm
              subst hm
              rfl
            | completeE =>
              simp at hm
              subst hm
              rfl
        · constructor
          · cases ev <;> (rw [alook_aset_ne (fun h => hkey h.symm)]; exact hI)
          · intro em hm
            cases ev with
            | nextE v =>
              by_cases ha : cl.active <;> simp [ha] at hm
              subst hm
              by_cases h1 : cid' = cid
              · subst h1
                have h2 : subId' ≠ subId := fun h => hkey (by rw [h])
                simp [isNextFor, h2]
              · simp [isNextFor, h1]
            | errorE msg =>
              simp at hm
              subst hm
              rfl
            | completeE =>
              simp at hm
              subst hm
              rfl
  | subjDeliver cid' ev f =>
    have hne : cid' ≠ cid := by
      intro h
      subst h
      simp [excludedC6] at hna
    simp only [step]
    unfold subjDeliverStep
    split
    · exact ⟨hI, by intro em hm; simp at hm⟩
    · split
      · exact ⟨hI, by intro em hm; simp at hm⟩
      · refine ⟨hI, ?_⟩
        intro em hm
        cases ev with
        | nextE v =>
          simp at hm
          subst hm
          simp [isNextFor]
          intro h1
          exact absurd h1 hne
        | errorE msg =>
          simp at hm
          subst hm
          rfl
        | completeE =>
          simp at hm
          subst hm
          rfl
  | collEmit cid' ev =>
    simp only [step]
    unfold collEmitStep
    split
    · exact ⟨hI, by intro em hm; simp at hm⟩
    · split
      · exact ⟨hI, by intro em hm; simp at hm⟩
      · exact ⟨hI, by intro em hm; simp at hm⟩
  | collFlush cid' =>
    simp only [step]
    unfold collFlushStep
    split
    · exact ⟨hI, by intro em hm; simp at hm⟩
    · split
      · exact ⟨hI, by intro em hm; simp at hm⟩
      · split
        · exact ⟨hI, by intro em hm; simp at hm⟩
        · exact ⟨hI, by intro em hm; simp at hm; subst hm; rfl⟩

theorem run_C6 (env : Env) (cid subId : Nat) :
    ∀ (evs : List InputEvent) (st : ServerState),
      (∀ e ∈ evs, excludedC6 cid subId e = false) →
      (alook (cid, subId) st.observableSubscriptions).map SubClosure.active = some false →
      ∀ em ∈ (run env st evs).2, isNextFor cid subId em = false := by
  intro evs
  induction evs with
  | nil =>
    intro st _ _ em hm
    simp [run] at hm
  | cons e es ih =>
    intro st hna hI em hm
    have hst := step_C6 env st e cid subId (hna e (by simp)) hI
    simp only [run] at hm
    rw [List.mem_append] at hm
    rcases hm with hm | hm
    · exact hst.2 em hm
    · exact ih (step env st e).1 (fun e' he' => hna e' (by simp [he'])) hst.1 em hm

/-- Claim C6 counterexample: call ID 4 returns a cold observable; the client
subscribes (subID 1) and then unsubscribes successfully; an in-flight
completion delivered after the `active` flag was cleared still produces a
`ResponseActionObservableComplete` frame carrying subID 1, because the
complete (and error) callbacks of lines 168–174 are not gated by `active`
— refuting the claim that no Next/Error/Complete frame with that subID is
emitted after a successful unsubscribe. -/
theorem claim_C6_counterexample :
    (run envDemo initState
      [.inAction 4 "c1" "obs" [], .inSubscribe 4 1, .inUnsubscribe 4 1,
       .obsDeliver 4 1 .completeE true]).2 =
      [.invoked "c1" "obs" [],
       .frame 4 (.responseActionObservable .observable),
       .frame 4 (.responseActionObservableComplete 1)] := by decide

/-- Claim C6 amended: after a successful `ActionObservableUnsubscribe` for
subscription ID `subId` on call ID `cid` (which clears the subscription's
`active` flag, cancels the underlying subscription and removes the entry),
no further `ResponseActionObservableNext` frame carrying `subId` is emitted
for that call (absent a new subscription with the same id, a new action on
the same call id, or subject-channel deliveries): the next callback is
gated by `active`, so even an in-flight value delivered after the flag is
cleared is not forwarded.  (The error and complete callbacks are not gated,
so an in-flight error or completion can still be forwarded, as the
counterexample shows.) -/
theorem claim_C6_no_next_after_unsubscribe (env : Env) (st : ServerState)
    (cid subId : Nat) (evs : List InputEvent)
    (hObs : (alook cid st.observables).isSome = true)
    (hPres : (alook (cid, subId) st.observableSubscriptions).map SubClosure.present = some true)
    (hNo : ∀ e ∈ evs, excludedC6 cid subId e = false) :
    (step env st (.inUnsubscribe cid subId)).2 = [] ∧
    ∀ em ∈ (run env (step env st (.inUnsubscribe cid subId)).1 evs).2,
      isNextFor cid subId em = false := by
  obtain ⟨entry, hobs⟩ : ∃ entry, alook cid st.observables = some entry := by
    rcases h : alook cid st.observables with _ | entry
    · rw [h] at hObs
      simp at hObs
    · exact ⟨entry, rfl⟩
  obtain ⟨cl, hcl, hp⟩ : ∃ cl, alook (cid, subId) st.observableSubscriptions = some cl ∧
      cl.present = true := by
    rcases h : alook (cid, subId) st.observableSubscriptions with _ | cl
    · rw [h] at hPres
      simp at hPres
    · rw [h] at hPres
      simp at hPres
      exact ⟨cl, rfl, hPres⟩
  have hstep : step env st (.inUnsubscribe cid subId) =
      ({ st with observableSubscriptions := (aset (cid, subId)
          { cl with present := false, active := false, cancelled := true }
          st.observableSubscriptions) }, []) := by
    simp only [step]
    unfold handleUnsubscribe
    rw [hobs, hcl]
    simp [hp]
  constructor
  · rw [hstep]
  · rw [hstep]
    exact run_C6 env cid subId evs _ hNo (by simp [alook_aset_eq])

/-- A dispatcher state holding a live latched-subject call (ID 11) with one
active client subscription (ID 2). -/
def stC6 : ServerState :=
  (run envDemo initState [.inAction 11 "c1" "sub" [], .inSubscribe 11 2]).1

def evsC6 : List InputEvent :=
  [.obsDeliver 11 2 (.nextE (.vStr "late")) true,
   .obsDeliver 11 2 (.nextE (.vStr "later")) false]

theorem claim_C6_witness :
    (step envDemo stC6 (.inUnsubscribe 11 2)).2 = [] ∧
    ((run envDemo (step envDemo stC6 (.inUnsubscribe 11 2)).1 evsC6).2.all
      (fun em => !(isNextFor 11 2 em))) = true := by
  have h := claim_C6_no_next_after_unsubscribe envDemo stC6 11 2 evsC6 rfl rfl (by decide)
  refine ⟨h.1, List.all_eq_true.mpr ?_⟩
  intro em hm
  simpa using h.2 em hm

theorem step_cache (env : Env) (st : ServerState) (e : InputEvent) :
    ∀ key t, alook key st.cachedActionsTypes = some t →
      ∃ t', alook key (step env st e).1.cachedActionsTypes = some t' ∧ typesEvolves t t' := by
  intro key t hk
  cases e with
  | inAction cid c m args =>
    simp only [step]
    exact handleAction_cache env cid c m args st key t hk
  | inSubscribe cid subId =>
    simp only [step]
    unfold handleSubscribe
    repeat' split
    all_goals exact ⟨t, hk, typesEvolves_refl t⟩
  | inUnsubscribe cid subId =>
    simp only [step]
    unfold handleUnsubscribe
    repeat' split
    all_goals exact ⟨t, hk, typesEvolves_refl t⟩
  | inSubjectUnsubscribe cid =>
    simp only [step]
    unfold handleSubjectUnsubscribe
    repeat' split
    all_goals exact ⟨t, hk, typesEvolves_refl t⟩
  | inCollectionUnsubscribe cid =>
    simp only [step]
    unfold handleCollectionUnsubscribe
    repeat' split
    all_goals exact ⟨t, hk, typesEvolves_refl t⟩
  | obsDeliver cid subId ev f =>
    simp only [step]
    unfold obsDeliverStep
    repeat' split
    all_goals exact ⟨t, hk, typesEvolves_refl t⟩
  | subjDeliver cid ev f =>
    simp only [step]
    unfold subjDeliverStep
    repeat' split
    all_goals exact ⟨t, hk, typesEvolves_refl t⟩
  | collEmit cid ev =>
    simp only [step]
    unfold collEmitStep
    repeat' split
    all_goals exact ⟨t, hk, typesEvolves_refl t⟩
  | collFlush cid =>
    simp only [step]
    unfold collFlushStep
    repeat' split
    all_goals exact ⟨t, hk, typesEvolves_refl t⟩

theorem run_cache (env : Env) :
    ∀ (evs : List InputEvent) (st : ServerState) (key : String) (t : ActionTypes),
      alook key st.cachedActionsTypes = some t →
      ∃ t', alook key (run env st evs).1.cachedActionsTypes = some t' ∧ typesEvolves t t' := by
  intro evs
  induction evs with
  | nil =>
    intro st key t hk
    exact ⟨t, hk, typesEvolves_refl t⟩
  | cons e es ih =>
    intro st key t hk
    obtain ⟨t1, h1, e1⟩ := step_cache env st e key t hk
    obtain ⟨t2, h2, e2⟩ := ih (step env st e).1 key t1 h1
    exact ⟨t2, h2, typesEvolves_trans e1 e2⟩

/-- Claim C4 amended: a cached `ActionTypes` entry, once present, is mutated
in exactly one way over any sequence of dispatcher steps: `parameters`,
`parameterSchema`, `resultSchema` and `observableNextSchema` never change,
and `collectionSchema` either stays what it was or steps from absent to the
canonical lazily built `{ v: array<result> }` schema (after which it is
frozen) — that is the `typesEvolves` relation.  Two reads of the same key
are therefore structurally identical except that the later one may have
`collectionSchema` populated. -/
theorem claim_C4_lazy_collection_schema_only (env : Env) (st : ServerState)
    (evs : List InputEvent) (key : String) (t1 : ActionTypes)
    (h : alook key st.cachedActionsTypes = some t1) :
    ∃ t2, alook key (run env st evs).1.cachedActionsTypes = some t2 ∧ typesEvolves t1 t2 :=
  run_cache env evs st key t1 h

/-- The cache state right after `loadTypes` has built the entry for
`c1!list` (first read of the key). -/
def stC4 : ServerState :=
  match loadTypes envDemo "c1" "list" initState with
  | .ok p => p.2
  | .error _ => initState

/-- The cached entry of `c1!list` at that point. -/
def tC4 : ActionTypes :=
  match loadTypes envDemo "c1" "list" initState with
  | .ok p => p.1
  | .error _ => ⟨[], ⟨[]⟩, ⟨[]⟩, ⟨[]⟩, none⟩

/-- The cache state after a collection result was served for the same key. -/
def stC4b : ServerState := (handleAction envDemo 9 "c1" "list" [] stC4).1

/-- Claim C4 counterexample: the `c1!list` cache entry read right after
insertion has no `collectionSchema`; after `handleAction` serves the first
collection result for the same key, the entry read again has it populated
(lines 238–244 mutate the cached object in place) — so the entry is mutated
after insertion and two reads of the same key observe structurally
different `ActionTypes` values, refuting the claim. -/
theorem claim_C4_counterexample :
    (alook (cacheKey "c1" "list") stC4.cachedActionsTypes).map ActionTypes.collectionSchema =
      some none ∧
    (alook (cacheKey "c1" "list") stC4b.cachedActionsTypes).map ActionTypes.collectionSchema =
      some (some (mkCollectionSchema (.mk "v" "string" none [] true))) ∧
    alook (cacheKey "c1" "list") stC4.cachedActionsTypes ≠
      alook (cacheKey "c1" "list") stC4b.cachedActionsTypes := by
  have hA : (alook (cacheKey "c1" "list") stC4.cachedActionsTypes).map
      ActionTypes.collectionSchema = some none := rfl
  have hB : (alook (cacheKey "c1" "list") stC4b.cachedActionsTypes).map
      ActionTypes.collectionSchema =
      some (some (mkCollectionSchema (.mk "v" "string" none [] true))) := rfl
  refine ⟨hA, hB, ?_⟩
  intro h
  have h2 := congrArg (Option.map ActionTypes.collectionSchema) h
  rw [hA, hB] at h2
  simp at h2

theorem claim_C4_witness :
    ∃ t2, alook (cacheKey "c1" "list")
        (run envDemo stC4 [.inAction 9 "c1" "list" []]).1.cachedActionsTypes = some t2 ∧
      typesEvolves tC4 t2 :=
  claim_C4_lazy_collection_schema_only envDemo stC4 [.inAction 9 "c1" "list" []]
    (cacheKey "c1" "list") tC4 rfl
